import Mathlib

/-!
Verification of the Alert Correlation and Incident Lifecycle Engine.

The definitions below are a shallow embedding of the Python sources:

* `services/incident-management/app/schemas/__init__.py` (transition table),
* `services/incident-management/app/services/incident_service.py`
  (`IncidentService.update_incident`, `IncidentService.create_incident`),
* `services/incident-management/app/repositories/incident_repository.py`
  (`IncidentRepository.update_incident`, `IncidentRepository.create_incident`),
* `services/incident-management/main.py` (`link_alert_to_incident`),
* `services/alert-ingestion/app/repositories/__init__.py` (`AlertRepository`),
* `services/alert-ingestion/app/services/alert_service.py` (`AlertService`).

Timestamps are modelled as integer seconds since the epoch; the database
tables (`incidents`, `incident_timeline`, `incident_notes`, `alerts`) are
modelled as lists inside a `Store`.  Fresh UUIDs and the wall clock are
passed in as explicit arguments.  The Python status value `open` is spelled
`Status.open_` because `open` is reserved in Lean.
-/

namespace IncidentPlatform

/-- The closed status enumeration `VALID_STATUSES`. -/
inductive Status where
  | open_
  | acknowledged
  | in_progress
  | resolved
deriving DecidableEq, Repr

/-- String form of a status, as stored in the database. -/
def Status.toStr : Status → String
  | .open_ => "open"
  | .acknowledged => "acknowledged"
  | .in_progress => "in_progress"
  | .resolved => "resolved"

/-- The transition table `ALLOWED_TRANSITIONS` of `app/schemas/__init__.py`.
The Python sets are listed here in the order produced by `sorted`, which the
error message uses. -/
def ALLOWED_TRANSITIONS : Status → List Status
  | .open_        => [.acknowledged, .in_progress, .resolved]
  | .acknowledged => [.in_progress, .resolved]
  | .in_progress  => [.resolved]
  | .resolved     => []

/-- A JSON scalar appearing in a timeline event detail or label map. -/
inductive JVal where
  | s (v : String)
  | b (v : Bool)
  | null
deriving DecidableEq, Repr

/-- How an `Optional[str]` is serialised into a JSON detail value. -/
def joptStr : Option String → JVal
  | none => .null
  | some v => .s v

/-- Python truthiness of an `Optional[str]`: `None` and `""` are falsy. -/
def strTruthy : Option String → Bool
  | none => false
  | some s => !(s == "")

/-- Python `a or b` on `Optional[str]` operands (empty string is falsy). -/
def pyOrStr : Option String → Option String → Option String
  | some s, b => if s == "" then b else some s
  | none, b => b

/-- A row of the `incidents` table.  `updated_at` is optional because the
fallback insert of `create_incident_locally` omits the column. -/
structure Incident where
  id : String
  title : String
  service : String
  severity : String
  status : Status
  assigned_to : Option String
  alert_count : Nat
  created_at : Int
  updated_at : Option Int
  acknowledged_at : Option Int
  resolved_at : Option Int
  mtta_seconds : Option Int
  mttr_seconds : Option Int
deriving DecidableEq, Repr

/-- A row of the `incident_timeline` table. -/
structure TimelineEvent where
  incident_id : String
  event_type : String
  actor : String
  detail : List (String × JVal)
deriving DecidableEq, Repr

/-- A row of the `incident_notes` table. -/
structure Note where
  id : String
  incident_id : String
  author : String
  content : String
  created_at : Int
deriving DecidableEq, Repr

/-- A row of the `alerts` table. -/
structure Alert where
  id : String
  service : String
  severity : String
  message : String
  source : String
  labels : List (String × JVal)
  fingerprint : String
  timestamp : String
  incident_id : Option String
deriving DecidableEq, Repr

/-- The database state shared by the services. -/
structure Store where
  incidents : List Incident
  timeline : List TimelineEvent
  notes : List Note
  alerts : List Alert
deriving DecidableEq, Repr

/-- `IncidentRepository.get_incident`: `SELECT ... FROM incidents WHERE id = :id`. -/
def Store.get_incident (st : Store) (incident_id : String) : Option Incident :=
  st.incidents.find? (fun i => i.id == incident_id)

/-- One staged `SET` clause of the `UPDATE incidents` statement, together with
its bound parameter value. -/
inductive ColumnUpdate where
  | set_assigned_to (v : String)
  | set_status (v : Status)
  | set_acknowledged_at (v : Int)
  | set_mtta_seconds (v : Int)
  | set_resolved_at (v : Int)
  | set_mttr_seconds (v : Int)
deriving DecidableEq, Repr

/-- Effect of one staged `SET` clause on an incident row. -/
def applyColumnUpdate (i : Incident) (u : ColumnUpdate) : Incident :=
  match u with
  | .set_assigned_to v => { i with assigned_to := some v }
  | .set_status v => { i with status := v }
  | .set_acknowledged_at v => { i with acknowledged_at := some v }
  | .set_mtta_seconds v => { i with mtta_seconds := some v }
  | .set_resolved_at v => { i with resolved_at := some v }
  | .set_mttr_seconds v => { i with mttr_seconds := some v }

/-- The check `"acknowledged_at = :ack_at" not in " ".join(updates)`:
whether a staged clause already sets `acknowledged_at`. -/
def setsAcknowledgedAt : ColumnUpdate → Bool
  | .set_acknowledged_at _ => true
  | _ => false

/-- Errors raised by `IncidentService.update_incident`: `KeyError` for a
missing incident and `ValueError` for an illegal transition (carrying the
data interpolated into its message). -/
inductive UpdateError where
  | not_found (incident_id : String)
  | illegal_transition (current requested : Status) (allowed : List Status)
deriving DecidableEq, Repr

/-- A single quote character, used when rendering the error message. -/
def sq : String := ⟨[Char.ofNat 39]⟩

/-- Rendering of `sorted(allowed) if allowed else "none (terminal state)"`. -/
def renderAllowed (allowed : List Status) : String :=
  match allowed with
  | [] => "none (terminal state)"
  | _ => "[" ++ String.intercalate ", " (allowed.map (fun s => sq ++ s.toStr ++ sq)) ++ "]"

/-- The `ValueError` message of an illegal transition. -/
def illegalTransitionMessage (current requested : Status) (allowed : List Status) : String :=
  "Cannot transition from " ++ sq ++ current.toStr ++ sq ++ " to " ++ sq ++
    requested.toStr ++ sq ++ ". Allowed: " ++ renderAllowed allowed

/-- The reassignment section of `update_incident`: stages
`assigned_to = :assigned_to` and an `assigned` timeline event when the call
provides an assignee different from the current one. -/
def stageAssigned (current : Incident) (incident_id : String)
    (assigned_to : Option String) : List ColumnUpdate × List TimelineEvent :=
  match assigned_to with
  | some a =>
    if some a ≠ current.assigned_to then
      ([.set_assigned_to a],
       [⟨incident_id, "assigned", "system",
         [("previous", joptStr current.assigned_to), ("new", .s a)]⟩])
    else ([], [])
  | none => ([], [])

/-- The MTTA / MTTR clauses staged by a legal status change: the status
column itself, `acknowledged_at` and `mtta_seconds` on first entry into
`acknowledged` or `in_progress`, and `resolved_at`, `mttr_seconds` plus the
auto-acknowledge backfill on entry into `resolved`. -/
def stageStatusUpdates (current : Incident) (new_status : Status) (now : Int) :
    List ColumnUpdate :=
  let u1 : List ColumnUpdate := [.set_status new_status]
  let u2 :=
    if (new_status = .acknowledged ∨ new_status = .in_progress) ∧
        current.acknowledged_at = none then
      u1 ++ [.set_acknowledged_at now, .set_mtta_seconds (now - current.created_at)]
    else u1
  if new_status = .resolved ∧ current.resolved_at = none then
    let mttr := now - current.created_at
    let u := u2 ++ [.set_resolved_at now, .set_mttr_seconds mttr]
    if current.acknowledged_at = none ∧ ¬ (u.any setsAcknowledgedAt = true) then
      u ++ [.set_acknowledged_at now, .set_mtta_seconds mttr]
    else u
  else u2

/-- The status-transition section of `update_incident`: enforces the state
machine, stages the status change, MTTA and MTTR columns, and the transition
timeline event. -/
def stageStatus (current : Incident) (incident_id : String)
    (status : Option Status) (now : Int) :
    Except UpdateError (List ColumnUpdate × List TimelineEvent) :=
  match status with
  | some new_status =>
    if new_status ≠ current.status then
      if new_status ∈ ALLOWED_TRANSITIONS current.status then
        .ok (stageStatusUpdates current new_status now,
             [⟨incident_id, new_status.toStr, "system",
               [("from", .s current.status.toStr), ("to", .s new_status.toStr)]⟩])
      else
        .error (.illegal_transition current.status new_status
                 (ALLOWED_TRANSITIONS current.status))
    else .ok ([], [])
  | none => .ok ([], [])

/-- The note author `assigned_to or current["assigned_to"] or "system"`. -/
def noteAuthor (assigned_to current_assigned : Option String) : String :=
  (pyOrStr assigned_to (pyOrStr current_assigned (some "system"))).getD "system"

/-- The notes section of `update_incident`: stages the `note_added` timeline
event carrying a 100-character preview.  The note row parameters are placed
in `params`, which the repository uses only for the `UPDATE` statement. -/
def stageNote (current : Incident) (incident_id : String)
    (notes assigned_to : Option String) (note_id : String) : List TimelineEvent :=
  if strTruthy notes then
    let content := notes.getD ""
    let author := noteAuthor assigned_to current.assigned_to
    [⟨incident_id, "note_added", author,
      [("note_id", .s note_id), ("preview", .s (content.take 100))]⟩]
  else []

/-- Effect of the staged `UPDATE incidents SET ... WHERE id = :id`. -/
def updateIncidentRow (incidents : List Incident) (incident_id : String)
    (updates : List ColumnUpdate) : List Incident :=
  incidents.map (fun i => if i.id == incident_id then updates.foldl applyColumnUpdate i else i)

/-- `IncidentRepository.update_incident`: inside one transaction, insert the
timeline events, apply the staged column updates when non-empty, and re-read
the row.  Note that the staged note parameters are dropped: the repository
never inserts into `incident_notes`. -/
def IncidentRepository.update_incident (st : Store) (incident_id : String)
    (updates : List ColumnUpdate) (timeline_events : List TimelineEvent) :
    Store × Option Incident :=
  let st1 : Store :=
    { st with
      timeline := st.timeline ++ timeline_events,
      incidents := updateIncidentRow st.incidents incident_id updates }
  (st1, st1.get_incident incident_id)

/-- `IncidentService.update_incident`: look up the incident, stage the
reassignment, status transition and note sections, then hand everything to
the repository.  `now` and `note_id` stand for the wall clock and the fresh
UUID drawn inside the Python function. -/
def IncidentService.update_incident (st : Store) (incident_id : String)
    (status : Option Status) (notes : Option String) (assigned_to : Option String)
    (now : Int) (note_id : String) : Except UpdateError (Store × Incident) :=
  match st.get_incident incident_id with
  | none => .error (.not_found incident_id)
  | some current =>
    let assignStaged := stageAssigned current incident_id assigned_to
    match stageStatus current incident_id status now with
    | .error e => .error e
    | .ok statusStaged =>
      let updates := assignStaged.1 ++ statusStaged.1
      let timeline_events := assignStaged.2 ++ statusStaged.2 ++
        stageNote current incident_id notes assigned_to note_id
      match IncidentRepository.update_incident st incident_id updates timeline_events with
      | (st1, some row) => .ok (st1, row)
      | (_, none) => .error (.not_found incident_id)

/-- `IncidentRepository.create_incident`: insert the row with status `open`
and `alert_count = 0`, a `created` timeline event and, when an assignee is
present, an `assigned` event — all in one transaction. -/
def IncidentRepository.create_incident (st : Store)
    (incident_id title service severity : String)
    (assigned_to : Option String) (now : Int) : Store × Incident :=
  let inc : Incident :=
    { id := incident_id, title := title, service := service, severity := severity,
      status := .open_, assigned_to := assigned_to, alert_count := 0,
      created_at := now, updated_at := some now,
      acknowledged_at := none, resolved_at := none,
      mtta_seconds := none, mttr_seconds := none }
  let ev1 : TimelineEvent :=
    ⟨incident_id, "created", "system",
     [("title", .s title), ("severity", .s severity), ("assigned_to", joptStr assigned_to)]⟩
  let evs :=
    if strTruthy assigned_to then
      [ev1, ⟨incident_id, "assigned", "system", [("assigned_to", joptStr assigned_to)]⟩]
    else [ev1]
  ({ st with incidents := st.incidents ++ [inc], timeline := st.timeline ++ evs }, inc)

/-- `IncidentService.create_incident`: fall back to the on-call primary when
the request carries no (truthy) assignee, then insert via the repository.
`oncall_primary` stands for the name returned by the on-call collaborator,
`none` when it is unreachable or has no primary. -/
def IncidentService.create_incident (st : Store)
    (incident_id title service severity : String)
    (assigned_to : Option String) (oncall_primary : Option String) (now : Int) :
    Store × Incident :=
  let assigned := if strTruthy assigned_to then assigned_to else oncall_primary
  IncidentRepository.create_incident st incident_id title service severity assigned now

/-! SHA-256 (FIPS 180-4), the `hashlib.sha256(...).hexdigest()` call of
`AlertService.compute_fingerprint`.  Words are `Nat` reduced modulo `2 ^ 32`;
messages are byte lists. -/

/-- Reduce modulo `2 ^ 32`. -/
def w32 (n : Nat) : Nat := n % 4294967296

/-- Right rotation of a 32-bit word. -/
def rotr32 (n x : Nat) : Nat := (x >>> n) ||| w32 (x <<< (32 - n))

/-- Bitwise complement of a 32-bit word. -/
def bnot32 (x : Nat) : Nat := x ^^^ 4294967295

/-- The small sigma-0 schedule function. -/
def sigS0 (x : Nat) : Nat := rotr32 7 x ^^^ rotr32 18 x ^^^ (x >>> 3)

/-- The small sigma-1 schedule function. -/
def sigS1 (x : Nat) : Nat := rotr32 17 x ^^^ rotr32 19 x ^^^ (x >>> 10)

/-- The big sigma-0 compression function. -/
def sigB0 (x : Nat) : Nat := rotr32 2 x ^^^ rotr32 13 x ^^^ rotr32 22 x

/-- The big sigma-1 compression function. -/
def sigB1 (x : Nat) : Nat := rotr32 6 x ^^^ rotr32 11 x ^^^ rotr32 25 x

/-- The 64 SHA-256 round constants (decimal). -/
def K : List Nat :=
  [1116352408, 1899447441, 3049323471, 3921009573, 961987163, 1508970993,
   2453635748, 2870763221, 3624381080, 310598401, 607225278, 1426881987,
   1925078388, 2162078206, 2614888103, 3248222580, 3835390401, 4022224774,
   264347078, 604807628, 770255983, 1249150122, 1555081692, 1996064986,
   2554220882, 2821834349, 2952996808, 3210313671, 3336571891, 3584528711,
   113926993, 338241895, 666307205, 773529912, 1294757372, 1396182291,
   1695183700, 1986661051, 2177026350, 2456956037, 2730485921, 2820302411,
   3259730800, 3345764771, 3516065817, 3600352804, 4094571909, 275423344,
   430227734, 506948616, 659060556, 883997877, 958139571, 1322822218,
   1537002063, 1747873779, 1955562222, 2024104815, 2227730452, 2361852424,
   2428436474, 2756734187, 3204031479, 3329325298]

/-- The SHA-256 initial hash value (decimal). -/
def H0 : List Nat :=
  [1779033703, 3144134277, 1013904242, 2773480762, 1359893119, 2600822924,
   528734635, 1541459225]

/-- Big-endian byte decomposition, `k` bytes. -/
def toBytesBE (k n : Nat) : List Nat :=
  (List.range k).map (fun i => (n >>> (8 * (k - 1 - i))) % 256)

/-- SHA-256 padding: `0x80`, zeros to 56 mod 64, then the 64-bit bit length. -/
def sha256pad (msg : List Nat) : List Nat :=
  let len := msg.length
  msg ++ [0x80] ++ List.replicate ((120 - (len + 1) % 64) % 64) 0 ++ toBytesBE 8 (len * 8)

/-- Split into 64-byte chunks. -/
def chunks64 (l : List Nat) : List (List Nat) :=
  if h : l = [] then []
  else l.take 64 :: chunks64 (l.drop 64)
termination_by l.length
decreasing_by
  simp only [List.length_drop]
  have := List.length_pos.mpr h
  omega

/-- The 16 initial 32-bit schedule words of one chunk, big-endian. -/
def chunkWords (c : List Nat) : List Nat :=
  (List.range 16).map (fun i =>
    c.getD (4 * i) 0 * 16777216 + c.getD (4 * i + 1) 0 * 65536 +
    c.getD (4 * i + 2) 0 * 256 + c.getD (4 * i + 3) 0)

/-- Append the next schedule word. -/
def scheduleStep (acc : List Nat) : List Nat :=
  let n := acc.length
  acc ++ [w32 (acc.getD (n - 16) 0 + sigS0 (acc.getD (n - 15) 0) +
               acc.getD (n - 7) 0 + sigS1 (acc.getD (n - 2) 0))]

/-- Iterate `scheduleStep`. -/
def extendSchedule : Nat → List Nat → List Nat
  | 0, ws => ws
  | n + 1, ws => extendSchedule n (scheduleStep ws)

/-- One SHA-256 compression round on the eight working registers. -/
def compressStep (st : List Nat) (wk : Nat × Nat) : List Nat :=
  let a := st.getD 0 0
  let b := st.getD 1 0
  let c := st.getD 2 0
  let d := st.getD 3 0
  let e := st.getD 4 0
  let f := st.getD 5 0
  let g := st.getD 6 0
  let h := st.getD 7 0
  let temp1 := w32 (h + sigB1 e + ((e &&& f) ^^^ (bnot32 e &&& g)) + wk.2 + wk.1)
  let temp2 := w32 (sigB0 a + ((a &&& b) ^^^ (a &&& c) ^^^ (b &&& c)))
  [w32 (temp1 + temp2), a, b, c, w32 (d + temp1), e, f, g]

/-- Process one 64-byte chunk against the running hash. -/
def processChunk (h : List Nat) (c : List Nat) : List Nat :=
  let ws := extendSchedule 48 (chunkWords c)
  let final := (ws.zip K).foldl compressStep h
  h.zipWith (fun x y => w32 (x + y)) final

/-- The eight 32-bit words of the SHA-256 digest of a byte list. -/
def sha256words (msg : List Nat) : List Nat :=
  (chunks64 (sha256pad msg)).foldl processChunk H0

/-- Lowercase hexadecimal digit. -/
def hexChar (n : Nat) : Char :=
  if n < 10 then Char.ofNat (48 + n) else Char.ofNat (87 + n)

/-- Eight hex characters of one 32-bit word, most significant first. -/
def toHex8 (n : Nat) : List Char :=
  (List.range 8).map (fun i => hexChar ((n >>> (4 * (7 - i))) % 16))

/-- The characters of `hashlib.sha256(msg).hexdigest()`. -/
def hexdigestChars (msg : List Nat) : List Char :=
  ((sha256words msg).map toHex8).flatten

/-- UTF-8 bytes of a string, as `Nat`s. -/
def strBytes (s : String) : List Nat :=
  s.toUTF8.toList.map (fun b => b.toNat)

/-- `AlertService.compute_fingerprint`: lowercase the
`service|severity|message[:100]` concatenation and keep the first 16 hex
characters of its SHA-256 digest. -/
def AlertService.compute_fingerprint (service severity message : String) : String :=
  let raw := (service ++ "|" ++ severity ++ "|" ++ message.take 100).toLower
  ⟨(hexdigestChars (strBytes raw)).take 16⟩

/-! Alert ingestion and the link-alert operation. -/

/-- The correlation predicate of `AlertRepository.find_existing_incident`:
same service and severity, not resolved, created inside the window. -/
def correlationMatch (service severity : String) (window_minutes now : Int)
    (i : Incident) : Bool :=
  decide (i.service = service ∧ i.severity = severity ∧ i.status ≠ Status.resolved ∧
    now - window_minutes * 60 < i.created_at)

/-- `ORDER BY created_at DESC LIMIT 1` on a filtered list: an element whose
`created_at` is maximal. -/
def mostRecent : List Incident → Option Incident
  | [] => none
  | i :: rest =>
    match mostRecent rest with
    | none => some i
    | some j => if j.created_at > i.created_at then some j else some i

/-- `AlertRepository.find_existing_incident`: the most recently created
matching incident inside the correlation window, if any. -/
def AlertRepository.find_existing_incident (st : Store) (service severity : String)
    (window_minutes : Int) (now : Int) : Option String :=
  match mostRecent (st.incidents.filter (correlationMatch service severity window_minutes now)) with
  | some i => some i.id
  | none => none

/-- `AlertRepository.increment_alert_count`:
`UPDATE incidents SET alert_count = alert_count + 1 WHERE id = :id`. -/
def AlertRepository.increment_alert_count (st : Store) (incident_id : String) : Store :=
  { st with incidents := st.incidents.map (fun i =>
      if i.id == incident_id then { i with alert_count := i.alert_count + 1 } else i) }

/-- `AlertRepository.store_alert`: insert the alert row. -/
def AlertRepository.store_alert (st : Store) (alert_id service severity message source : String)
    (labels : List (String × JVal)) (fingerprint ts : String)
    (incident_id : Option String) : Store :=
  { st with alerts := st.alerts ++
      [⟨alert_id, service, severity, message, source, labels, fingerprint, ts, incident_id⟩] }

/-- `AlertRepository.add_correlation_timeline`: insert the `alert_correlated`
timeline row. -/
def AlertRepository.add_correlation_timeline (st : Store)
    (incident_id alert_id fingerprint : String) : Store :=
  { st with timeline := st.timeline ++
      [⟨incident_id, "alert_correlated", "alert-ingestion",
        [("alert_id", .s alert_id), ("fingerprint", .s fingerprint)]⟩] }

/-- The `[SEV] service: message[:120]` incident title built both by
`IncidentClient.create_incident` and `create_incident_locally`. -/
def alertIncidentTitle (service severity message : String) : String :=
  "[" ++ severity.toUpper ++ "] " ++ service ++ ": " ++ message.take 120

/-- The incident row inserted by `create_incident_locally`: status `open`,
`alert_count = 0`, no assignee, and no `updated_at` (the fallback insert
omits that column). -/
def localFallbackIncident (incident_id service severity message : String)
    (now : Int) : Incident :=
  { id := incident_id, title := alertIncidentTitle service severity message,
    service := service, severity := severity, status := .open_,
    assigned_to := none, alert_count := 0, created_at := now, updated_at := none,
    acknowledged_at := none, resolved_at := none,
    mtta_seconds := none, mttr_seconds := none }

/-- `AlertRepository.create_incident_locally`: the fallback insert used when
incident-management is down.  The `created` timeline event carries the
`{"fallback": true}` marker with actor `alert-ingestion`. -/
def AlertRepository.create_incident_locally (st : Store)
    (incident_id service severity message : String) (now : Int) : Store × String :=
  let inc : Incident := localFallbackIncident incident_id service severity message now
  ({ st with incidents := st.incidents ++ [inc],
             timeline := st.timeline ++
               [⟨incident_id, "created", "alert-ingestion", [("fallback", .b true)]⟩] },
   incident_id)

/-- Result payload of `AlertService.process_alert`. -/
structure ProcessResult where
  alert_id : String
  incident_id : Option String
  fingerprint : String
  status : String
  action : String
deriving DecidableEq, Repr

/-- `AlertService.process_alert`: correlate, create (remotely, with a local
fallback when `remote_incident_id = none`, i.e. the incident client caught an
exception or a non-2xx reply), increment the alert count, store the alert,
and record the correlation event for existing incidents.  `remote_incident_id`
is the value returned by `IncidentClient.create_incident`; when it succeeds
the incident row is the one created by `IncidentService.create_incident` with
the on-call assignee `oncall_primary`. -/
def AlertService.process_alert (st : Store) (service severity message source : String)
    (labels : List (String × JVal)) (timestamp : Option String)
    (alert_id : String) (window_minutes now : Int) (nowIso : String)
    (remote_incident_id : Option String) (oncall_primary : Option String)
    (local_incident_id : String) : Store × ProcessResult :=
  let ts := (pyOrStr timestamp (some nowIso)).getD nowIso
  let fingerprint := AlertService.compute_fingerprint service severity message
  match AlertRepository.find_existing_incident st service severity window_minutes now with
  | some incident_id =>
    let st1 := AlertRepository.increment_alert_count st incident_id
    let st2 := AlertRepository.store_alert st1 alert_id service severity message source
      labels fingerprint ts (some incident_id)
    let st3 := AlertRepository.add_correlation_timeline st2 incident_id alert_id fingerprint
    (st3, ⟨alert_id, some incident_id, fingerprint, "accepted", "existing_incident"⟩)
  | none =>
    match remote_incident_id with
    | some rid =>
      let st1 := (IncidentService.create_incident st rid
        (alertIncidentTitle service severity message) service severity none oncall_primary now).1
      let st2 := AlertRepository.increment_alert_count st1 rid
      let st3 := AlertRepository.store_alert st2 alert_id service severity message source
        labels fingerprint ts (some rid)
      (st3, ⟨alert_id, some rid, fingerprint, "accepted", "new_incident"⟩)
    | none =>
      let (st1, lid) := AlertRepository.create_incident_locally st local_incident_id
        service severity message now
      let st2 := AlertRepository.increment_alert_count st1 lid
      let st3 := AlertRepository.store_alert st2 alert_id service severity message source
        labels fingerprint ts (some lid)
      (st3, ⟨alert_id, some lid, fingerprint, "accepted", "new_incident"⟩)

/-- Error of the `link-alert` endpoint: HTTP 404. -/
inductive LinkError where
  | not_found
deriving DecidableEq, Repr

/-- `link_alert_to_incident` (incident-management `main.py`): inside one
transaction, check the incident exists (else 404 `not_found`), bump
`alert_count`, and append the `alert_correlated` timeline event. -/
def link_alert_to_incident (st : Store) (incident_id alert_id fingerprint : String) :
    Except LinkError Store :=
  match st.get_incident incident_id with
  | none => .error .not_found
  | some _ =>
    .ok (AlertRepository.add_correlation_timeline
          (AlertRepository.increment_alert_count st incident_id)
          incident_id alert_id fingerprint)

/-! A small operation language over the store, used to state the invariants
that quantify over every operation of the engine. -/

/-- The store-mutating operations of the engine. -/
inductive Op where
  | create (incident_id title service severity : String)
      (assigned_to oncall : Option String) (now : Int)
  | link (incident_id alert_id fingerprint : String)
  | update (incident_id : String) (status : Option Status)
      (notes assigned_to : Option String) (now : Int) (note_id : String)
  | process (service severity message source : String) (labels : List (String × JVal))
      (timestamp : Option String) (alert_id : String) (window_minutes now : Int)
      (nowIso : String) (remote oncall : Option String) (local_id : String)

/-- Effect of one operation on the store; a failed operation (a raised
`KeyError`, `ValueError` or an HTTP 404) leaves the store unchanged, since
the exception is raised before any write of the transaction. -/
def stepOp (st : Store) : Op → Store
  | .create id t sv se a oc now =>
      (IncidentService.create_incident st id t sv se a oc now).1
  | .link iid aid fp =>
      match link_alert_to_incident st iid aid fp with
      | .ok st1 => st1
      | .error _ => st
  | .update iid s n a now nid =>
      match IncidentService.update_incident st iid s n a now nid with
      | .ok (st1, _) => st1
      | .error _ => st
  | .process sv se m src lb ts aid w now niso rem oc lid =>
      (AlertService.process_alert st sv se m src lb ts aid w now niso rem oc lid).1

/-- Run a list of operations. -/
def runOps (st : Store) : List Op → Store
  | [] => st
  | op :: rest => runOps (stepOp st op) rest

/-- The `alert_count` of an incident, `0` when the row is absent. -/
def alertCountOf (st : Store) (incident_id : String) : Nat :=
  match st.get_incident incident_id with
  | some i => i.alert_count
  | none => 0

/-- Number of successful `link_alert` calls for `incident_id` in a run: a link
succeeds exactly when the incident row exists at the moment of the call. -/
def successfulLinks (st : Store) (incident_id : String) : List Op → Nat
  | [] => 0
  | op :: rest =>
    (match op with
     | .link iid _ _ =>
       if iid = incident_id ∧ (st.get_incident iid).isSome then 1 else 0
     | _ => 0) + successfulLinks (stepOp st op) incident_id rest

/-! Frame lemmas about staged column updates. -/

theorem applyColumnUpdate_id (i : Incident) (u : ColumnUpdate) :
    (applyColumnUpdate i u).id = i.id := by
  cases u <;> rfl

theorem applyColumnUpdate_alert_count (i : Incident) (u : ColumnUpdate) :
    (applyColumnUpdate i u).alert_count = i.alert_count := by
  cases u <;> rfl

theorem applyColumnUpdate_created_at (i : Incident) (u : ColumnUpdate) :
    (applyColumnUpdate i u).created_at = i.created_at := by
  cases u <;> rfl

theorem foldlUpdates_id (us : List ColumnUpdate) (i : Incident) :
    (us.foldl applyColumnUpdate i).id = i.id := by
  induction us generalizing i with
  | nil => rfl
  | cons u us ih => rw [List.foldl_cons, ih, applyColumnUpdate_id]

theorem foldlUpdates_alert_count (us : List ColumnUpdate) (i : Incident) :
    (us.foldl applyColumnUpdate i).alert_count = i.alert_count := by
  induction us generalizing i with
  | nil => rfl
  | cons u us ih => rw [List.foldl_cons, ih, applyColumnUpdate_alert_count]

theorem foldlUpdates_created_at (us : List ColumnUpdate) (i : Incident) :
    (us.foldl applyColumnUpdate i).created_at = i.created_at := by
  induction us generalizing i with
  | nil => rfl
  | cons u us ih => rw [List.foldl_cons, ih, applyColumnUpdate_created_at]

/-- `find?` after a row update that preserves ids. -/
theorem find?_map_id_preserving (l : List Incident) (incident_id : String)
    (f : Incident → Incident) (hf : ∀ i, (f i).id = i.id) (cur : Incident)
    (hfind : l.find? (fun i => i.id == incident_id) = some cur) :
    (l.map (fun i => if i.id == incident_id then f i else i)).find?
      (fun i => i.id == incident_id) = some (f cur) := by
  induction l with
  | nil => simp at hfind
  | cons x xs ih =>
    by_cases hx : x.id = incident_id
    · have hxb : (x.id == incident_id) = true := by simp [hx]
      simp only [List.find?_cons, hxb] at hfind
      injection hfind with hcur
      subst hcur
      have hgx : ((f x).id == incident_id) = true := by simp [hf, hx]
      simp only [List.map_cons, if_pos hxb, List.find?_cons, hgx]
    · have hxb : (x.id == incident_id) = false := by simp [hx]
      simp only [List.find?_cons, hxb] at hfind
      simp only [List.map_cons, hxb, Bool.false_eq_true, if_false, List.find?_cons]
      exact ih hfind

theorem updateIncidentRow_find? (l : List Incident) (incident_id : String)
    (us : List ColumnUpdate) (cur : Incident)
    (hfind : l.find? (fun i => i.id == incident_id) = some cur) :
    (updateIncidentRow l incident_id us).find? (fun i => i.id == incident_id)
      = some (us.foldl applyColumnUpdate cur) :=
  find?_map_id_preserving l incident_id _ (fun i => foldlUpdates_id us i) cur hfind

/-- The success path of `IncidentService.update_incident`, written out. -/
theorem update_incident_ok (st : Store) (incident_id : String) (cur : Incident)
    (status : Option Status) (notes assigned_to : Option String) (now : Int)
    (note_id : String) (staged : List ColumnUpdate × List TimelineEvent)
    (hcur : st.get_incident incident_id = some cur)
    (hstage : stageStatus cur incident_id status now = .ok staged) :
    IncidentService.update_incident st incident_id status notes assigned_to now note_id =
      .ok ({ st with
              timeline := st.timeline ++
                ((stageAssigned cur incident_id assigned_to).2 ++ staged.2 ++
                  stageNote cur incident_id notes assigned_to note_id),
              incidents := updateIncidentRow st.incidents incident_id
                ((stageAssigned cur incident_id assigned_to).1 ++ staged.1) },
            ((stageAssigned cur incident_id assigned_to).1 ++ staged.1).foldl
              applyColumnUpdate cur) := by
  have hfind : st.incidents.find? (fun i => i.id == incident_id) = some cur := hcur
  unfold IncidentService.update_incident
  rw [hcur]
  simp only [hstage]
  unfold IncidentRepository.update_incident
  simp only [Store.get_incident, updateIncidentRow_find? _ _ _ _ hfind]

/-- The illegal-transition path of `IncidentService.update_incident`. -/
theorem update_incident_error (st : Store) (incident_id : String) (cur : Incident)
    (status : Option Status) (notes assigned_to : Option String) (now : Int)
    (note_id : String) (e : UpdateError)
    (hcur : st.get_incident incident_id = some cur)
    (hstage : stageStatus cur incident_id status now = .error e) :
    IncidentService.update_incident st incident_id status notes assigned_to now note_id =
      .error e := by
  unfold IncidentService.update_incident
  rw [hcur]
  simp only [hstage]

deriving instance DecidableEq for Except

/-- Whether an `Except` result is a success. -/
def exceptOk {ε α : Type} : Except ε α → Bool
  | .ok _ => true
  | .error _ => false

theorem stageStatus_mem (cur : Incident) (iid : String) (target : Status) (now : Int)
    (hne : target ≠ cur.status) (hmem : target ∈ ALLOWED_TRANSITIONS cur.status) :
    stageStatus cur iid (some target) now =
      .ok (stageStatusUpdates cur target now,
           [⟨iid, target.toStr, "system",
             [("from", .s cur.status.toStr), ("to", .s target.toStr)]⟩]) := by
  simp [stageStatus, hne, hmem]

theorem stageStatus_not_mem (cur : Incident) (iid : String) (target : Status) (now : Int)
    (hne : target ≠ cur.status) (hnm : target ∉ ALLOWED_TRANSITIONS cur.status) :
    stageStatus cur iid (some target) now =
      .error (.illegal_transition cur.status target (ALLOWED_TRANSITIONS cur.status)) := by
  simp [stageStatus, hne, hnm]

theorem stageStatus_same (cur : Incident) (iid : String) (now : Int) :
    stageStatus cur iid (some cur.status) now = .ok ([], []) := by
  simp [stageStatus]

theorem stageAssigned_self (cur : Incident) (iid : String) :
    stageAssigned cur iid cur.assigned_to = ([], []) := by
  unfold stageAssigned
  cases h : cur.assigned_to with
  | none => rfl
  | some a => simp

theorem updateIncidentRow_nil (l : List Incident) (iid : String) :
    updateIncidentRow l iid [] = l := by
  unfold updateIncidentRow
  simp

theorem stageNote_types (cur : Incident) (iid : String) (notes assigned_to : Option String)
    (nid : String) : ∀ e ∈ stageNote cur iid notes assigned_to nid,
      e.event_type = "note_added" := by
  intro e he
  unfold stageNote at he
  split at he
  · simp at he
    rw [he]
  · simp at he

/-- C1: for an existing incident and a target status different from the
current one, the transition call succeeds exactly when the target is in the
allowed set of `ALLOWED_TRANSITIONS`; otherwise it fails with an
`illegal_transition` error naming the current status, the requested status
and the allowed set — rendered as `none (terminal state)` when the set is
empty — and the store (hence the incident and all its fields) is unchanged
by the failed call.  The allowed set of `resolved` is empty, so every
transition call out of `resolved` with a different target fails this way. -/
theorem C1_transition_table (st : Store) (incident_id : String) (cur : Incident)
    (target : Status) (notes assigned_to : Option String) (now : Int) (note_id : String)
    (hcur : st.get_incident incident_id = some cur) (hne : target ≠ cur.status) :
    ((target ∈ ALLOWED_TRANSITIONS cur.status) ↔
      exceptOk (IncidentService.update_incident st incident_id (some target) notes
        assigned_to now note_id) = true)
    ∧ (target ∉ ALLOWED_TRANSITIONS cur.status →
        IncidentService.update_incident st incident_id (some target) notes assigned_to
            now note_id
          = .error (.illegal_transition cur.status target (ALLOWED_TRANSITIONS cur.status))
        ∧ stepOp st (.update incident_id (some target) notes assigned_to now note_id) = st)
    ∧ (ALLOWED_TRANSITIONS cur.status = [] →
        renderAllowed (ALLOWED_TRANSITIONS cur.status) = "none (terminal state)")
    ∧ ALLOWED_TRANSITIONS Status.resolved = [] := by
  refine ⟨⟨fun hmem => ?_, fun hok => ?_⟩, fun hnm => ⟨?_, ?_⟩, fun hempty => ?_, rfl⟩
  · rw [update_incident_ok st incident_id cur _ notes assigned_to now note_id _ hcur
        (stageStatus_mem cur incident_id target now hne hmem)]
    rfl
  · by_contra hnm
    rw [update_incident_error st incident_id cur _ notes assigned_to now note_id _ hcur
        (stageStatus_not_mem cur incident_id target now hne hnm)] at hok
    simp [exceptOk] at hok
  · exact update_incident_error st incident_id cur _ notes assigned_to now note_id _ hcur
      (stageStatus_not_mem cur incident_id target now hne hnm)
  · simp only [stepOp,
      update_incident_error st incident_id cur _ notes assigned_to now note_id _ hcur
        (stageStatus_not_mem cur incident_id target now hne hnm)]
  · rw [hempty]
    rfl

/-- A resolved sample incident used to instantiate the lifecycle theorems. -/
def sampleIncident : Incident :=
  { id := "i1", title := "t", service := "api", severity := "high",
    status := .resolved, assigned_to := some "alice", alert_count := 2,
    created_at := 100, updated_at := some 100,
    acknowledged_at := some 150, resolved_at := some 200,
    mtta_seconds := some 50, mttr_seconds := some 100 }

/-- A sample store holding `sampleIncident`. -/
def sampleStore : Store :=
  { incidents := [sampleIncident], timeline := [], notes := [], alerts := [] }

/-- Witness for C1: the resolved sample incident rejects the transition back
to `open`, reporting the empty allowed set, and the store is untouched. -/
theorem C1_transition_table_witness :
    (sampleStore.get_incident "i1" = some sampleIncident
      ∧ Status.open_ ≠ sampleIncident.status)
    ∧ (((Status.open_ ∈ ALLOWED_TRANSITIONS sampleIncident.status) ↔
        exceptOk (IncidentService.update_incident sampleStore "i1" (some .open_) none
          none 300 "n1") = true)
      ∧ (Status.open_ ∉ ALLOWED_TRANSITIONS sampleIncident.status →
          IncidentService.update_incident sampleStore "i1" (some .open_) none none
              300 "n1"
            = .error (.illegal_transition sampleIncident.status .open_
                (ALLOWED_TRANSITIONS sampleIncident.status))
          ∧ stepOp sampleStore (.update "i1" (some .open_) none none 300 "n1")
              = sampleStore)
      ∧ (ALLOWED_TRANSITIONS sampleIncident.status = [] →
          renderAllowed (ALLOWED_TRANSITIONS sampleIncident.status)
            = "none (terminal state)")
      ∧ ALLOWED_TRANSITIONS Status.resolved = []) :=
  ⟨⟨by decide, by decide⟩,
   C1_transition_table sampleStore "i1" sampleIncident .open_ none none 300 "n1"
     (by decide) (by decide)⟩

/-- C9: a transition call whose target equals the current status (here
including `resolved → resolved`) and whose assignee equals the current one
succeeds, leaves every incident row unchanged (it returns the current row
itself), and appends no `assigned` or status timeline event: every appended
event is at most a `note_added` event stemming from the `notes` argument. -/
theorem C9_same_status_noop (st : Store) (incident_id : String) (cur : Incident)
    (notes : Option String) (assigned_to : Option String) (now : Int) (note_id : String)
    (hcur : st.get_incident incident_id = some cur)
    (hassigned : assigned_to = cur.assigned_to) :
    IncidentService.update_incident st incident_id (some cur.status) notes assigned_to
        now note_id
      = .ok ({ st with timeline := (st.timeline ++
                stageNote cur incident_id notes assigned_to note_id) }, cur)
    ∧ ∀ e ∈ stageNote cur incident_id notes assigned_to note_id,
        e.event_type = "note_added" := by
  subst hassigned
  refine ⟨?_, stageNote_types cur incident_id notes cur.assigned_to note_id⟩
  rw [update_incident_ok st incident_id cur _ notes cur.assigned_to now note_id ([], [])
      hcur (stageStatus_same cur incident_id now)]
  simp [stageAssigned_self, updateIncidentRow_nil]

/-- Witness for C9: `resolved → resolved` with the current assignee on the
sample store is accepted and is a perfect no-op. -/
theorem C9_same_status_noop_witness :
    (sampleStore.get_incident "i1" = some sampleIncident
      ∧ some "alice" = sampleIncident.assigned_to)
    ∧ (IncidentService.update_incident sampleStore "i1" (some sampleIncident.status)
          none (some "alice") 300 "n1"
        = .ok ({ sampleStore with timeline := (sampleStore.timeline ++
                  stageNote sampleIncident "i1" none (some "alice") "n1") }, sampleIncident)
      ∧ ∀ e ∈ stageNote sampleIncident "i1" none (some "alice") "n1",
          e.event_type = "note_added") :=
  ⟨⟨by decide, by decide⟩,
   C9_same_status_noop sampleStore "i1" sampleIncident none (some "alice") 300 "n1"
     (by decide) (by decide)⟩

theorem stageStatus_none (cur : Incident) (iid : String) (now : Int) :
    stageStatus cur iid none now = .ok ([], []) := rfl

theorem stageAssigned_cases (cur : Incident) (iid : String) (a? : Option String) :
    stageAssigned cur iid a? = ([], []) ∨
    ∃ a, a? = some a ∧ stageAssigned cur iid a? =
      ([.set_assigned_to a],
       [⟨iid, "assigned", "system",
         [("previous", joptStr cur.assigned_to), ("new", .s a)]⟩]) := by
  cases a? with
  | none => exact Or.inl rfl
  | some a =>
    by_cases h : some a ≠ cur.assigned_to
    · exact Or.inr ⟨a, rfl, by simp [stageAssigned, h]⟩
    · exact Or.inl (by simp [stageAssigned, h])

theorem stageStatusUpdates_first_ack (cur : Incident) (target : Status) (now : Int)
    (ht : target = Status.acknowledged ∨ target = Status.in_progress)
    (hack : cur.acknowledged_at = none) :
    stageStatusUpdates cur target now =
      [.set_status target, .set_acknowledged_at now,
       .set_mtta_seconds (now - cur.created_at)] := by
  rcases ht with rfl | rfl <;> simp [stageStatusUpdates, hack]

theorem stageStatusUpdates_fast_track (cur : Incident) (now : Int)
    (hack : cur.acknowledged_at = none) (hres : cur.resolved_at = none) :
    stageStatusUpdates cur Status.resolved now =
      [.set_status .resolved, .set_resolved_at now,
       .set_mttr_seconds (now - cur.created_at), .set_acknowledged_at now,
       .set_mtta_seconds (now - cur.created_at)] := by
  simp [stageStatusUpdates, hack, hres, setsAcknowledgedAt]

theorem stageStatusUpdates_resolve_acked (cur : Incident) (now : Int)
    (hack : ¬ cur.acknowledged_at = none) (hres : cur.resolved_at = none) :
    stageStatusUpdates cur Status.resolved now =
      [.set_status .resolved, .set_resolved_at now,
       .set_mttr_seconds (now - cur.created_at)] := by
  simp [stageStatusUpdates, hack, hres]

theorem stageStatusUpdates_plain (cur : Incident) (target : Status) (now : Int)
    (h1 : ¬((target = Status.acknowledged ∨ target = Status.in_progress) ∧
            cur.acknowledged_at = none))
    (h2 : ¬(target = Status.resolved ∧ cur.resolved_at = none)) :
    stageStatusUpdates cur target now = [.set_status target] := by
  simp only [stageStatusUpdates]
  rw [if_neg h1, if_neg h2]

/-- C2: `acknowledged_at` and `mtta_seconds` are set at most once — a call on
an incident whose `acknowledged_at` is already set never changes either — and
they are set, to `now` and `now - created_at`, by the first transition into
`acknowledged` or `in_progress`; a transition to `resolved` directly from
`open` with `acknowledged_at` still unset sets `resolved_at` and
`mttr_seconds` and backfills `acknowledged_at = resolved_at` and
`mtta_seconds = mttr_seconds`. -/
theorem C2_mtta_once_and_backfill (st : Store) (incident_id : String) (cur : Incident)
    (status : Option Status) (notes assigned_to : Option String) (now : Int)
    (note_id : String) (st1 : Store) (row : Incident)
    (hcur : st.get_incident incident_id = some cur)
    (hok : IncidentService.update_incident st incident_id status notes assigned_to now
      note_id = .ok (st1, row)) :
    (cur.acknowledged_at ≠ none →
      row.acknowledged_at = cur.acknowledged_at ∧ row.mtta_seconds = cur.mtta_seconds)
    ∧ (∀ target, status = some target →
        (target = Status.acknowledged ∨ target = Status.in_progress) →
        target ≠ cur.status → cur.acknowledged_at = none →
        row.acknowledged_at = some now
          ∧ row.mtta_seconds = some (now - cur.created_at))
    ∧ (status = some Status.resolved → cur.status = Status.open_ →
        cur.acknowledged_at = none → cur.resolved_at = none →
        row.resolved_at = some now ∧ row.mttr_seconds = some (now - cur.created_at)
          ∧ row.acknowledged_at = row.resolved_at
          ∧ row.mtta_seconds = row.mttr_seconds) := by
  refine ⟨?_, ?_, ?_⟩
  · intro hack
    cases status with
    | none =>
      rw [update_incident_ok st incident_id cur none notes assigned_to now note_id
          ([], []) hcur (stageStatus_none cur incident_id now)] at hok
      injection hok with h
      injection h with h1 h2
      subst h1
      subst h2
      rcases stageAssigned_cases cur incident_id assigned_to with hpre | ⟨a, _, hpre⟩ <;>
        simp [hpre, applyColumnUpdate]
    | some target =>
      by_cases hsame : target = cur.status
      · subst hsame
        rw [update_incident_ok st incident_id cur _ notes assigned_to now note_id
            ([], []) hcur (stageStatus_same cur incident_id now)] at hok
        injection hok with h
        injection h with h1 h2
        subst h1
        subst h2
        rcases stageAssigned_cases cur incident_id assigned_to with hpre | ⟨a, _, hpre⟩ <;>
          simp [hpre, applyColumnUpdate]
      · by_cases hmem : target ∈ ALLOWED_TRANSITIONS cur.status
        · rw [update_incident_ok st incident_id cur _ notes assigned_to now note_id _
              hcur (stageStatus_mem cur incident_id target now hsame hmem)] at hok
          injection hok with h
          injection h with h1 h2
          subst h1
          subst h2
          by_cases hc2 : target = Status.resolved ∧ cur.resolved_at = none
          · obtain ⟨rfl, hres⟩ := hc2
            rcases stageAssigned_cases cur incident_id assigned_to with hpre | ⟨a, _, hpre⟩ <;>
              simp [hpre, stageStatusUpdates_resolve_acked cur now hack hres,
                applyColumnUpdate]
          · have h1 : ¬((target = Status.acknowledged ∨ target = Status.in_progress) ∧
                cur.acknowledged_at = none) := fun h => hack h.2
            rcases stageAssigned_cases cur incident_id assigned_to with hpre | ⟨a, _, hpre⟩ <;>
              simp [hpre, stageStatusUpdates_plain cur target now h1 hc2,
                applyColumnUpdate]
        · rw [update_incident_error st incident_id cur _ notes assigned_to now note_id _
              hcur (stageStatus_not_mem cur incident_id target now hsame hmem)] at hok
          exact absurd hok (by simp)
  · rintro target rfl ht hne hack
    by_cases hmem : target ∈ ALLOWED_TRANSITIONS cur.status
    · rw [update_incident_ok st incident_id cur _ notes assigned_to now note_id _
          hcur (stageStatus_mem cur incident_id target now hne hmem)] at hok
      injection hok with h
      injection h with h1 h2
      subst h1
      subst h2
      rcases stageAssigned_cases cur incident_id assigned_to with hpre | ⟨a, _, hpre⟩ <;>
        simp [hpre, stageStatusUpdates_first_ack cur target now ht hack, applyColumnUpdate]
    · rw [update_incident_error st incident_id cur _ notes assigned_to now note_id _
          hcur (stageStatus_not_mem cur incident_id target now hne hmem)] at hok
      exact absurd hok (by simp)
  · rintro rfl hopen hack hres
    have hne : Status.resolved ≠ cur.status := by rw [hopen]; decide
    have hmem : Status.resolved ∈ ALLOWED_TRANSITIONS cur.status := by
      rw [hopen]; decide
    rw [update_incident_ok st incident_id cur _ notes assigned_to now note_id _
        hcur (stageStatus_mem cur incident_id Status.resolved now hne hmem)] at hok
    injection hok with h
    injection h with h1 h2
    subst h1
    subst h2
    rcases stageAssigned_cases cur incident_id assigned_to with hpre | ⟨a, _, hpre⟩ <;>
      simp [hpre, stageStatusUpdates_fast_track cur now hack hres, applyColumnUpdate]

/-- A fresh open sample incident. -/
def freshIncident : Incident :=
  { id := "i2", title := "t2", service := "api", severity := "high",
    status := .open_, assigned_to := none, alert_count := 0,
    created_at := 100, updated_at := some 100,
    acknowledged_at := none, resolved_at := none,
    mtta_seconds := none, mttr_seconds := none }

/-- A store holding only `freshIncident`. -/
def freshStore : Store :=
  { incidents := [freshIncident], timeline := [], notes := [], alerts := [] }

/-- `freshIncident` after the fast-track `open → resolved` call at time 400. -/
def freshResolvedIncident : Incident :=
  { freshIncident with
    status := .resolved
    acknowledged_at := some 400
    resolved_at := some 400
    mtta_seconds := some 300
    mttr_seconds := some 300 }

/-- `freshStore` after the fast-track `open → resolved` call at time 400. -/
def freshResolvedStore : Store :=
  { incidents := [freshResolvedIncident],
    timeline := [⟨"i2", "resolved", "system",
      [("from", .s "open"), ("to", .s "resolved")]⟩],
    notes := [], alerts := [] }

/-- Witness for C2: the fast-track resolution of a fresh open incident sets
all four metric fields at once, with MTTA equal to MTTR. -/
theorem C2_mtta_once_and_backfill_witness :
    (freshStore.get_incident "i2" = some freshIncident
      ∧ IncidentService.update_incident freshStore "i2" (some .resolved) none none
          400 "n2" = .ok (freshResolvedStore, freshResolvedIncident))
    ∧ ((freshIncident.acknowledged_at ≠ none →
          freshResolvedIncident.acknowledged_at = freshIncident.acknowledged_at
            ∧ freshResolvedIncident.mtta_seconds = freshIncident.mtta_seconds)
      ∧ (∀ target, (some Status.resolved : Option Status) = some target →
          (target = Status.acknowledged ∨ target = Status.in_progress) →
          target ≠ freshIncident.status → freshIncident.acknowledged_at = none →
          freshResolvedIncident.acknowledged_at = some 400
            ∧ freshResolvedIncident.mtta_seconds
              = some (400 - freshIncident.created_at))
      ∧ ((some Status.resolved : Option Status) = some Status.resolved →
          freshIncident.status = Status.open_ →
          freshIncident.acknowledged_at = none → freshIncident.resolved_at = none →
          freshResolvedIncident.resolved_at = some 400
            ∧ freshResolvedIncident.mttr_seconds = some (400 - freshIncident.created_at)
            ∧ freshResolvedIncident.acknowledged_at = freshResolvedIncident.resolved_at
            ∧ freshResolvedIncident.mtta_seconds = freshResolvedIncident.mttr_seconds)) :=
  ⟨⟨by decide, by decide⟩,
   C2_mtta_once_and_backfill freshStore "i2" freshIncident (some .resolved) none none
     400 "n2" freshResolvedStore freshResolvedIncident (by decide) (by decide)⟩

/-- The C10 pairing invariant: `acknowledged_at` and `mtta_seconds` are both
unset or both set, and likewise `resolved_at` and `mttr_seconds`. -/
def metricsPaired (i : Incident) : Prop :=
  (i.acknowledged_at = none ↔ i.mtta_seconds = none) ∧
  (i.resolved_at = none ↔ i.mttr_seconds = none)

/-- The four possible shapes of the staged status updates: the `acknowledged`
pair and the `resolved` pair are only ever staged together. -/
theorem stageStatusUpdates_shapes (cur : Incident) (t : Status) (now : Int) :
    stageStatusUpdates cur t now = [.set_status t]
    ∨ stageStatusUpdates cur t now =
        [.set_status t, .set_acknowledged_at now,
         .set_mtta_seconds (now - cur.created_at)]
    ∨ stageStatusUpdates cur t now =
        [.set_status t, .set_resolved_at now,
         .set_mttr_seconds (now - cur.created_at)]
    ∨ stageStatusUpdates cur t now =
        [.set_status t, .set_resolved_at now, .set_mttr_seconds (now - cur.created_at),
         .set_acknowledged_at now, .set_mtta_seconds (now - cur.created_at)] := by
  by_cases h1 : (t = Status.acknowledged ∨ t = Status.in_progress) ∧
      cur.acknowledged_at = none
  · exact Or.inr (Or.inl (stageStatusUpdates_first_ack cur t now h1.1 h1.2))
  · by_cases h2 : t = Status.resolved ∧ cur.resolved_at = none
    · obtain ⟨rfl, hres⟩ := h2
      by_cases hack : cur.acknowledged_at = none
      · exact Or.inr (Or.inr (Or.inr (stageStatusUpdates_fast_track cur now hack hres)))
      · exact Or.inr (Or.inr (Or.inl (stageStatusUpdates_resolve_acked cur now hack hres)))
    · exact Or.inl (stageStatusUpdates_plain cur t now h1 h2)

/-- Applying any full staged update list of one `update_incident` call keeps
the pairing invariant, on any row it happens to touch. -/
theorem metricsPaired_staged (cur j : Incident) (iid : String) (a? : Option String)
    (t : Status) (now : Int) (statusUpdates : List ColumnUpdate)
    (hstatus : statusUpdates = [] ∨ statusUpdates = stageStatusUpdates cur t now)
    (hj : metricsPaired j) :
    metricsPaired (((stageAssigned cur iid a?).1 ++ statusUpdates).foldl
      applyColumnUpdate j) := by
  have hpre : metricsPaired ((stageAssigned cur iid a?).1.foldl applyColumnUpdate j) ∧
      ((stageAssigned cur iid a?).1.foldl applyColumnUpdate j).created_at
        = j.created_at := by
    rcases stageAssigned_cases cur iid a? with hc | ⟨a, _, hc⟩ <;>
      simp only [hc] <;> exact ⟨hj, rfl⟩
  rw [List.foldl_append]
  set k := (stageAssigned cur iid a?).1.foldl applyColumnUpdate j with hk
  rcases hstatus with rfl | rfl
  · exact hpre.1
  · rcases stageStatusUpdates_shapes cur t now with hs | hs | hs | hs <;>
      rw [hs] <;> simp only [List.foldl_cons, List.foldl_nil, applyColumnUpdate] <;>
      constructor <;> simp [metricsPaired] at hpre ⊢ <;> tauto

/-- All incident rows after an `update_incident` success keep the invariant. -/
theorem metricsPaired_updateIncidentRow (l : List Incident) (iid : String)
    (cur : Incident) (a? : Option String) (t : Status) (now : Int)
    (statusUpdates : List ColumnUpdate)
    (hstatus : statusUpdates = [] ∨ statusUpdates = stageStatusUpdates cur t now)
    (hinv : ∀ i ∈ l, metricsPaired i) :
    ∀ i ∈ updateIncidentRow l iid ((stageAssigned cur iid a?).1 ++ statusUpdates),
      metricsPaired i := by
  intro i hi
  unfold updateIncidentRow at hi
  obtain ⟨j, hj, hij⟩ := List.mem_map.mp hi
  by_cases hc : (j.id == iid) = true
  · rw [if_pos hc] at hij
    exact hij ▸ metricsPaired_staged cur j iid a? t now statusUpdates hstatus (hinv j hj)
  · rw [if_neg hc] at hij
    exact hij ▸ hinv j hj

theorem metricsPaired_create (st : Store) (id t sv se : String) (a oc : Option String)
    (now : Int) (hinv : ∀ i ∈ st.incidents, metricsPaired i) :
    ∀ i ∈ ((IncidentService.create_incident st id t sv se a oc now).1).incidents,
      metricsPaired i := by
  intro i hi
  unfold IncidentService.create_incident IncidentRepository.create_incident at hi
  simp only [List.mem_append, List.mem_singleton] at hi
  rcases hi with hi | rfl
  · exact hinv i hi
  · exact ⟨by simp, by simp⟩

theorem metricsPaired_increment (st : Store) (iid : String)
    (hinv : ∀ i ∈ st.incidents, metricsPaired i) :
    ∀ i ∈ (AlertRepository.increment_alert_count st iid).incidents, metricsPaired i := by
  intro i hi
  unfold AlertRepository.increment_alert_count at hi
  obtain ⟨j, hj, hij⟩ := List.mem_map.mp hi
  by_cases hc : (j.id == iid) = true
  · rw [if_pos hc] at hij
    rw [← hij]
    exact hinv j hj
  · rw [if_neg hc] at hij
    rw [← hij]
    exact hinv j hj

theorem metricsPaired_create_locally (st : Store) (iid sv se m : String) (now : Int)
    (hinv : ∀ i ∈ st.incidents, metricsPaired i) :
    ∀ i ∈ ((AlertRepository.create_incident_locally st iid sv se m now).1).incidents,
      metricsPaired i := by
  intro i hi
  unfold AlertRepository.create_incident_locally at hi
  simp only [List.mem_append, List.mem_singleton] at hi
  rcases hi with hi | rfl
  · exact hinv i hi
  · exact ⟨by simp [localFallbackIncident], by simp [localFallbackIncident]⟩

theorem metricsPaired_process (st : Store) (sv se m src : String)
    (lb : List (String × JVal)) (ts : Option String) (aid : String) (w now : Int)
    (niso : String) (rem oc : Option String) (lid : String)
    (hinv : ∀ i ∈ st.incidents, metricsPaired i) :
    ∀ i ∈ ((AlertService.process_alert st sv se m src lb ts aid w now niso
      rem oc lid).1).incidents, metricsPaired i := by
  unfold AlertService.process_alert
  cases hfind : AlertRepository.find_existing_incident st sv se w now with
  | some iid =>
    simp only []
    exact metricsPaired_increment st iid hinv
  | none =>
    cases rem with
    | some rid =>
      simp only []
      exact metricsPaired_increment _ rid
        (metricsPaired_create st rid (alertIncidentTitle sv se m) sv se none oc now hinv)
    | none =>
      simp only [AlertRepository.create_incident_locally]
      exact metricsPaired_increment _ lid
        (metricsPaired_create_locally st lid sv se m now hinv)

/-- Inversion of a successful `update_incident`: the incident existed, and
the new incident table is the old one with the staged updates applied. -/
theorem update_incident_ok_incidents (st : Store) (iid : String) (status : Option Status)
    (notes a? : Option String) (now : Int) (nid : String) (st1 : Store) (row : Incident)
    (hok : IncidentService.update_incident st iid status notes a? now nid
      = .ok (st1, row)) :
    ∃ cur statusUpdates,
      st.get_incident iid = some cur
      ∧ (statusUpdates = [] ∨ ∃ t, statusUpdates = stageStatusUpdates cur t now)
      ∧ st1.incidents = updateIncidentRow st.incidents iid
          ((stageAssigned cur iid a?).1 ++ statusUpdates) := by
  cases hg : st.get_incident iid with
  | none =>
    rw [show IncidentService.update_incident st iid status notes a? now nid
        = .error (.not_found iid) from by
      unfold IncidentService.update_incident; rw [hg]] at hok
    exact absurd hok (by simp)
  | some cur =>
    cases status with
    | none =>
      rw [update_incident_ok st iid cur none notes a? now nid ([], []) hg
          (stageStatus_none cur iid now)] at hok
      injection hok with h
      injection h with h1 h2
      subst h1
      exact ⟨cur, [], rfl, Or.inl rfl, by simp⟩
    | some t =>
      by_cases hsame : t = cur.status
      · subst hsame
        rw [update_incident_ok st iid cur _ notes a? now nid ([], []) hg
            (stageStatus_same cur iid now)] at hok
        injection hok with h
        injection h with h1 h2
        subst h1
        exact ⟨cur, [], rfl, Or.inl rfl, by simp⟩
      · by_cases hmem : t ∈ ALLOWED_TRANSITIONS cur.status
        · rw [update_incident_ok st iid cur _ notes a? now nid _ hg
              (stageStatus_mem cur iid t now hsame hmem)] at hok
          injection hok with h
          injection h with h1 h2
          subst h1
          exact ⟨cur, stageStatusUpdates cur t now, rfl, Or.inr ⟨t, rfl⟩, by simp⟩
        · rw [update_incident_error st iid cur _ notes a? now nid _ hg
              (stageStatus_not_mem cur iid t now hsame hmem)] at hok
          exact absurd hok (by simp)

/-- C10: incident creation initialises `acknowledged_at`, `resolved_at`,
`mtta_seconds` and `mttr_seconds` to null, and every operation of the engine
preserves the invariant that `acknowledged_at` and `mtta_seconds` are both
unset or both set, and likewise `resolved_at` and `mttr_seconds`: the only
operations that set any of them set the corresponding timestamp and metric
together. -/
theorem C10_metric_pairs (st : Store) (op : Op)
    (hinv : ∀ i ∈ st.incidents, metricsPaired i) :
    (∀ i ∈ (stepOp st op).incidents, metricsPaired i)
    ∧ (∀ incident_id title service severity assigned oncall now,
        (IncidentService.create_incident st incident_id title service severity
            assigned oncall now).2.acknowledged_at = none
        ∧ (IncidentService.create_incident st incident_id title service severity
            assigned oncall now).2.resolved_at = none
        ∧ (IncidentService.create_incident st incident_id title service severity
            assigned oncall now).2.mtta_seconds = none
        ∧ (IncidentService.create_incident st incident_id title service severity
            assigned oncall now).2.mttr_seconds = none) := by
  refine ⟨?_, fun _ _ _ _ _ _ _ => ⟨rfl, rfl, rfl, rfl⟩⟩
  cases op with
  | create id t sv se a oc now =>
    simp only [stepOp]
    exact metricsPaired_create st id t sv se a oc now hinv
  | link iid aid fp =>
    simp only [stepOp]
    cases hl : link_alert_to_incident st iid aid fp with
    | error e => exact hinv
    | ok st1 =>
      cases hg : st.get_incident iid with
      | none =>
        rw [show link_alert_to_incident st iid aid fp = .error .not_found from by
          unfold link_alert_to_incident; rw [hg]] at hl
        exact absurd hl (by simp)
      | some cur =>
        rw [show link_alert_to_incident st iid aid fp
            = .ok (AlertRepository.add_correlation_timeline
                (AlertRepository.increment_alert_count st iid) iid aid fp) from by
          unfold link_alert_to_incident; rw [hg]] at hl
        injection hl with h1
        subst h1
        exact metricsPaired_increment st iid hinv
  | update iid s n a now nid =>
    simp only [stepOp]
    cases hu : IncidentService.update_incident st iid s n a now nid with
    | error e => exact hinv
    | ok p =>
      obtain ⟨st1, row⟩ := p
      obtain ⟨cur, su, hg, hsu, hinc⟩ :=
        update_incident_ok_incidents st iid s n a now nid st1 row hu
      intro i hi
      rw [hinc] at hi
      rcases hsu with rfl | ⟨t, rfl⟩
      · exact metricsPaired_updateIncidentRow st.incidents iid cur a .open_ now []
          (Or.inl rfl) hinv i hi
      · exact metricsPaired_updateIncidentRow st.incidents iid cur a t now _
          (Or.inr rfl) hinv i hi
  | process sv se m src lb ts aid w now niso rem oc lid =>
    simp only [stepOp]
    exact metricsPaired_process st sv se m src lb ts aid w now niso rem oc lid hinv

/-- Witness for C10: stepping the fresh sample store by the fast-track
resolve operation keeps every incident row well paired, and creation returns
all four metric fields null. -/
theorem C10_metric_pairs_witness :
    (∀ i ∈ freshStore.incidents, metricsPaired i)
    ∧ ((∀ i ∈ (stepOp freshStore
          (.update "i2" (some .resolved) none none 400 "n2")).incidents,
        metricsPaired i)
      ∧ (∀ incident_id title service severity assigned oncall now,
          (IncidentService.create_incident freshStore incident_id title service severity
              assigned oncall now).2.acknowledged_at = none
          ∧ (IncidentService.create_incident freshStore incident_id title service severity
              assigned oncall now).2.resolved_at = none
          ∧ (IncidentService.create_incident freshStore incident_id title service severity
              assigned oncall now).2.mtta_seconds = none
          ∧ (IncidentService.create_incident freshStore incident_id title service severity
              assigned oncall now).2.mttr_seconds = none)) :=
  ⟨by intro i hi; simp only [freshStore, List.mem_singleton] at hi; subst hi; exact ⟨by simp [freshIncident], by simp [freshIncident]⟩,
   C10_metric_pairs freshStore (.update "i2" (some .resolved) none none 400 "n2")
     (by intro i hi; simp only [freshStore, List.mem_singleton] at hi; subst hi; exact ⟨by simp [freshIncident], by simp [freshIncident]⟩)⟩

/-- C4, divergence witness: a transition call carrying notes on the existing
sample incident returns successfully, appends the `note_added` timeline event
with the author (`assigned_to` if present, else the prior assignee, else
`system`) and the 100-character preview, but the `incident_notes` table of
the resulting store is still empty: `IncidentRepository.update_incident`
never inserts the Note row the service staged in `params`, contradicting the
comment in `IncidentService.update_incident` and the monolith
implementation of the same endpoint in `main.py`, which does insert it. -/
theorem C4_note_row_dropped :
    IncidentService.update_incident sampleStore "i1" none (some "investigating")
        none 300 "n1"
      = .ok ({ incidents := [sampleIncident],
               timeline := [⟨"i1", "note_added", "alice",
                 [("note_id", .s "n1"), ("preview", .s "investigating")]⟩],
               notes := [], alerts := [] },
             sampleIncident) := by
  set_option maxRecDepth 4000 in decide

/-- C3: `link_alert` (the `link-alert` endpoint of incident-management)
fails with `not_found` exactly when the incident does not exist; on an
existing incident the single transactional call increments `alert_count`
by exactly one and appends the `alert_correlated` timeline event, touching
nothing else. -/
theorem C3_link_alert (st : Store) (incident_id alert_id fingerprint : String) :
    (link_alert_to_incident st incident_id alert_id fingerprint = .error .not_found
      ↔ st.get_incident incident_id = none)
    ∧ (∀ cur, st.get_incident incident_id = some cur →
        ∃ st1, link_alert_to_incident st incident_id alert_id fingerprint = .ok st1
          ∧ st1.get_incident incident_id
              = some { cur with alert_count := cur.alert_count + 1 }
          ∧ st1.timeline = st.timeline ++
              [⟨incident_id, "alert_correlated", "alert-ingestion",
                [("alert_id", .s alert_id), ("fingerprint", .s fingerprint)]⟩]
          ∧ st1.notes = st.notes ∧ st1.alerts = st.alerts) := by
  constructor
  · constructor
    · intro he
      cases hg : st.get_incident incident_id with
      | none => rfl
      | some cur =>
        rw [show link_alert_to_incident st incident_id alert_id fingerprint
            = .ok (AlertRepository.add_correlation_timeline
                (AlertRepository.increment_alert_count st incident_id)
                incident_id alert_id fingerprint) from by
          unfold link_alert_to_incident; rw [hg]] at he
        exact absurd he (by simp)
    · intro hg
      unfold link_alert_to_incident
      rw [hg]
  · intro cur hg
    refine ⟨AlertRepository.add_correlation_timeline
        (AlertRepository.increment_alert_count st incident_id)
        incident_id alert_id fingerprint,
      by unfold link_alert_to_incident; rw [hg], ?_, rfl, rfl, rfl⟩
    have hfind : st.incidents.find? (fun i => i.id == incident_id) = some cur := hg
    exact find?_map_id_preserving st.incidents incident_id
      (fun i => { i with alert_count := i.alert_count + 1 }) (fun _ => rfl) cur hfind

/-- Witness for C3: linking an alert to the existing sample incident bumps
its `alert_count` from 2 to 3 and appends the correlation event. -/
theorem C3_link_alert_witness :
    sampleStore.get_incident "i1" = some sampleIncident
    ∧ ∃ st1, link_alert_to_incident sampleStore "i1" "a1" "fp16" = .ok st1
        ∧ st1.get_incident "i1"
            = some { sampleIncident with alert_count := sampleIncident.alert_count + 1 }
        ∧ st1.timeline = sampleStore.timeline ++
            [⟨"i1", "alert_correlated", "alert-ingestion",
              [("alert_id", .s "a1"), ("fingerprint", .s "fp16")]⟩]
        ∧ st1.notes = sampleStore.notes ∧ st1.alerts = sampleStore.alerts :=
  ⟨by decide,
   (C3_link_alert sampleStore "i1" "a1" "fp16").2 sampleIncident (by decide)⟩

/-- C5: when no open incident matches and the Correlation Authority is
unreachable or errors (`remote_incident_id = none`, the incident client
having swallowed the exception), `process_alert` still returns normally with
status `accepted`, action `new_incident` and a non-null incident id, and the
first timeline event of the locally created fallback incident carries the
`{"fallback": true}` marker in its detail. -/
theorem C5_degraded_mode (st : Store) (sv se m src : String)
    (lb : List (String × JVal)) (ts : Option String) (aid : String) (w now : Int)
    (niso : String) (oc : Option String) (lid : String)
    (hmiss : AlertRepository.find_existing_incident st sv se w now = none)
    (hfresh : ∀ e ∈ st.timeline, e.incident_id ≠ lid) :
    (AlertService.process_alert st sv se m src lb ts aid w now niso none oc lid).2.status
        = "accepted"
    ∧ (AlertService.process_alert st sv se m src lb ts aid w now niso none oc
        lid).2.action = "new_incident"
    ∧ (AlertService.process_alert st sv se m src lb ts aid w now niso none oc
        lid).2.incident_id = some lid
    ∧ ∃ ev, ((AlertService.process_alert st sv se m src lb ts aid w now niso none oc
          lid).1.timeline.filter (fun e => e.incident_id == lid)).head? = some ev
        ∧ ("fallback", JVal.b true) ∈ ev.detail := by
  unfold AlertService.process_alert
  rw [hmiss]
  refine And.intro rfl (And.intro rfl (And.intro rfl ?_))
  refine Exists.intro
    ⟨lid, "created", "alert-ingestion", [("fallback", JVal.b true)]⟩ (And.intro ?_ ?_)
  · show ((st.timeline ++
        [(⟨lid, "created", "alert-ingestion", [("fallback", JVal.b true)]⟩ :
          TimelineEvent)]).filter
          (fun e => e.incident_id == lid)).head? = _
    rw [List.filter_append, show st.timeline.filter (fun e => e.incident_id == lid) = []
      from List.filter_eq_nil_iff.mpr (fun e he => by simp [hfresh e he])]
    simp
  · simp

/-- The empty store. -/
def emptyStore : Store :=
  { incidents := [], timeline := [], notes := [], alerts := [] }

/-- Witness for C5: an empty store, correlation miss, remote creation down —
the call still accepts the alert against the local fallback incident. -/
theorem C5_degraded_mode_witness :
    (AlertRepository.find_existing_incident emptyStore "api" "high" 5 1000 = none
      ∧ ∀ e ∈ emptyStore.timeline, e.incident_id ≠ "f1")
    ∧ ((AlertService.process_alert emptyStore "api" "high" "5xx spike" "api" [] none
          "a9" 5 1000 "iso" none none "f1").2.status = "accepted"
      ∧ (AlertService.process_alert emptyStore "api" "high" "5xx spike" "api" [] none
          "a9" 5 1000 "iso" none none "f1").2.action = "new_incident"
      ∧ (AlertService.process_alert emptyStore "api" "high" "5xx spike" "api" [] none
          "a9" 5 1000 "iso" none none "f1").2.incident_id = some "f1"
      ∧ ∃ ev, ((AlertService.process_alert emptyStore "api" "high" "5xx spike" "api"
            [] none "a9" 5 1000 "iso" none none "f1").1.timeline.filter
            (fun e => e.incident_id == "f1")).head? = some ev
          ∧ ("fallback", JVal.b true) ∈ ev.detail) :=
  ⟨⟨by decide, by decide⟩,
   C5_degraded_mode emptyStore "api" "high" "5xx spike" "api" [] none "a9" 5 1000
     "iso" none "f1" (by decide) (by decide)⟩

theorem mostRecent_none_iff (l : List Incident) : mostRecent l = none ↔ l = [] := by
  cases l with
  | nil => simp [mostRecent]
  | cons i rest =>
    simp only [mostRecent]
    cases h : mostRecent rest with
    | none => simp
    | some j => by_cases hc : j.created_at > i.created_at <;> simp [hc]

theorem mostRecent_spec (l : List Incident) (i : Incident) (h : mostRecent l = some i) :
    i ∈ l ∧ ∀ j ∈ l, j.created_at ≤ i.created_at := by
  induction l generalizing i with
  | nil => simp [mostRecent] at h
  | cons x rest ih =>
    simp only [mostRecent] at h
    cases hr : mostRecent rest with
    | none =>
      rw [hr] at h
      have h2 : some x = some i := h
      injection h2 with h2
      subst h2
      have : rest = [] := (mostRecent_none_iff rest).mp hr
      subst this
      exact ⟨by simp, by simp⟩
    | some j =>
      rw [hr] at h
      have h2 : (if j.created_at > x.created_at then some j else some x) = some i := h
      obtain ⟨hmem, hmax⟩ := ih j hr
      by_cases hc : j.created_at > x.created_at
      · rw [if_pos hc] at h2
        injection h2 with h2
        subst h2
        refine ⟨List.mem_cons_of_mem x hmem, ?_⟩
        intro k hk
        rcases List.mem_cons.mp hk with rfl | hk
        · exact le_of_lt hc
        · exact hmax k hk
      · rw [if_neg hc] at h2
        injection h2 with h2
        subst h2
        refine ⟨List.mem_cons_self x rest, ?_⟩
        intro k hk
        rcases List.mem_cons.mp hk with rfl | hk
        · exact le_refl k.created_at
        · exact le_trans (hmax k hk) (by omega)

/-- C7: `find_existing_incident` returns `none` exactly when no incident
matches all three conditions (same service and severity, not resolved,
created inside the window); otherwise it returns the id of a matching
incident whose `created_at` is maximal among all matching incidents. -/
theorem C7_find_open_incident (st : Store) (service severity : String) (w now : Int) :
    (AlertRepository.find_existing_incident st service severity w now = none
      ↔ ∀ i ∈ st.incidents,
          ¬(i.service = service ∧ i.severity = severity ∧
            i.status ≠ Status.resolved ∧ now - w * 60 < i.created_at))
    ∧ ∀ iid, AlertRepository.find_existing_incident st service severity w now = some iid →
        ∃ i ∈ st.incidents,
          (i.service = service ∧ i.severity = severity ∧
            i.status ≠ Status.resolved ∧ now - w * 60 < i.created_at)
          ∧ i.id = iid
          ∧ ∀ j ∈ st.incidents,
              (j.service = service ∧ j.severity = severity ∧
                j.status ≠ Status.resolved ∧ now - w * 60 < j.created_at) →
              j.created_at ≤ i.created_at := by
  constructor
  · unfold AlertRepository.find_existing_incident
    cases hm : mostRecent (st.incidents.filter
        (correlationMatch service severity w now)) with
    | some i =>
      simp only []
      constructor
      · intro h
        exact absurd h (by simp)
      · intro hnone
        obtain ⟨hmem, _⟩ := mostRecent_spec _ i hm
        obtain ⟨hin, hp⟩ := List.mem_filter.mp hmem
        exact absurd (of_decide_eq_true hp) (hnone i hin)
    | none =>
      simp only []
      constructor
      · intro _ i hin hp
        have hfil : st.incidents.filter (correlationMatch service severity w now) = [] :=
          (mostRecent_none_iff _).mp hm
        have : i ∈ st.incidents.filter (correlationMatch service severity w now) :=
          List.mem_filter.mpr ⟨hin, decide_eq_true hp⟩
        rw [hfil] at this
        exact absurd this (List.not_mem_nil i)
      · intro _
        trivial
  · intro iid hsome
    unfold AlertRepository.find_existing_incident at hsome
    cases hm : mostRecent (st.incidents.filter
        (correlationMatch service severity w now)) with
    | none => rw [hm] at hsome; exact absurd hsome (by simp)
    | some i =>
      rw [hm] at hsome
      injection hsome with hsome
      obtain ⟨hmem, hmax⟩ := mostRecent_spec _ i hm
      obtain ⟨hin, hp⟩ := List.mem_filter.mp hmem
      refine ⟨i, hin, of_decide_eq_true hp, hsome, ?_⟩
      intro j hj hjp
      exact hmax j (List.mem_filter.mpr ⟨hj, decide_eq_true hjp⟩)

/-- Witness for C7: on the sample store (one resolved incident) the lookup
misses — resolved incidents never correlate — and on the fresh store the
open incident is found as the most recent match. -/
theorem C7_find_open_incident_witness :
    (AlertRepository.find_existing_incident freshStore "api" "high" 5 150 = some "i2")
    ∧ (∃ i ∈ freshStore.incidents,
        (i.service = "api" ∧ i.severity = "high" ∧
          i.status ≠ Status.resolved ∧ 150 - 5 * 60 < i.created_at)
        ∧ i.id = "i2"
        ∧ ∀ j ∈ freshStore.incidents,
            (j.service = "api" ∧ j.severity = "high" ∧
              j.status ≠ Status.resolved ∧ 150 - 5 * 60 < j.created_at) →
            j.created_at ≤ i.created_at) :=
  ⟨by decide, (C7_find_open_incident freshStore "api" "high" 5 150).2 "i2" (by decide)⟩

/-- `find?` by id commutes with a map that preserves ids. -/
theorem find?_map_id (l : List Incident) (x : String) (g : Incident → Incident)
    (hg : ∀ i, (g i).id = i.id) :
    (l.map g).find? (fun i => i.id == x) = (l.find? (fun i => i.id == x)).map g := by
  induction l with
  | nil => rfl
  | cons a as ih =>
    simp only [List.map_cons, List.find?_cons, hg]
    cases ha : (a.id == x) with
    | false => simpa [ha] using ih
    | true => simp [ha]

/-- The `alert_count` associated to an id in a list of incident rows. -/
def countOfList (l : List Incident) (x : String) : Nat :=
  match l.find? (fun i => i.id == x) with
  | some i => i.alert_count
  | none => 0

theorem alertCountOf_eq_countOfList (st : Store) (x : String) :
    alertCountOf st x = countOfList st.incidents x := rfl

theorem countOfList_append_le (l : List Incident) (inc : Incident) (x : String) :
    countOfList l x ≤ countOfList (l ++ [inc]) x := by
  unfold countOfList
  rw [List.find?_append]
  cases hf : l.find? (fun i => i.id == x) with
  | some c => simp
  | none => simp

theorem countOfList_append_fresh (l : List Incident) (inc : Incident) (x : String)
    (hnone : l.find? (fun i => i.id == x) = none) (hid : inc.id = x) :
    countOfList (l ++ [inc]) x = inc.alert_count := by
  unfold countOfList
  rw [List.find?_append, hnone]
  simp [List.find?_cons, hid]

theorem countOfList_map_preserve (l : List Incident) (x : String)
    (g : Incident → Incident) (hid : ∀ i, (g i).id = i.id)
    (hcnt : ∀ i, (g i).alert_count = i.alert_count) :
    countOfList (l.map g) x = countOfList l x := by
  unfold countOfList
  rw [find?_map_id l x g hid]
  cases l.find? (fun i => i.id == x) <;> simp [hcnt]

/-- The effect of the `alert_count` bump on the count table. -/
theorem countOfList_bump (l : List Incident) (iid x : String) :
    countOfList (l.map (fun i =>
        if i.id == iid then { i with alert_count := i.alert_count + 1 } else i)) x
      = if x = iid ∧ (l.find? (fun i => i.id == x)).isSome
        then countOfList l x + 1 else countOfList l x := by
  unfold countOfList
  rw [find?_map_id l x _
    (fun i => by by_cases h : (i.id == iid) = true <;> simp [h])]
  cases hf : l.find? (fun i => i.id == x) with
  | none => simp
  | some c =>
    have hcx : c.id = x := by simpa using List.find?_some hf
    by_cases hx : x = iid
    · subst hx
      simp [hcx]
    · have hcf : (c.id == iid) = false := by simp [hcx, hx]
      simp [hcf, hcx, hx]

theorem create_incident_incidents (st : Store) (id t sv se : String)
    (a oc : Option String) (now : Int) :
    ((IncidentService.create_incident st id t sv se a oc now).1).incidents
      = st.incidents ++ [(IncidentService.create_incident st id t sv se a oc now).2] :=
  rfl

theorem create_incident_count_zero (st : Store) (id t sv se : String)
    (a oc : Option String) (now : Int) :
    (IncidentService.create_incident st id t sv se a oc now).2.alert_count = 0 := rfl

theorem create_incident_id (st : Store) (id t sv se : String)
    (a oc : Option String) (now : Int) :
    (IncidentService.create_incident st id t sv se a oc now).2.id = id := rfl

/-- A successful link bumps exactly the target incident by one. -/
theorem alertCountOf_link_ok (st st1 : Store) (iid aid fp : String)
    (h : link_alert_to_incident st iid aid fp = .ok st1) :
    alertCountOf st1 iid = alertCountOf st iid + 1
    ∧ (∀ x, x ≠ iid → alertCountOf st1 x = alertCountOf st x)
    ∧ (st.get_incident iid).isSome = true := by
  cases hg : st.get_incident iid with
  | none =>
    rw [show link_alert_to_incident st iid aid fp = .error .not_found from by
      unfold link_alert_to_incident; rw [hg]] at h
    exact absurd h (by simp)
  | some cur =>
    rw [show link_alert_to_incident st iid aid fp
        = .ok (AlertRepository.add_correlation_timeline
            (AlertRepository.increment_alert_count st iid) iid aid fp) from by
      unfold link_alert_to_incident; rw [hg]] at h
    injection h with h
    subst h
    have hfind : st.incidents.find? (fun i => i.id == iid) = some cur := hg
    refine ⟨?_, ?_, rfl⟩
    · rw [alertCountOf_eq_countOfList, alertCountOf_eq_countOfList]
      show countOfList (st.incidents.map _) iid = _
      rw [countOfList_bump]
      simp [Store.get_incident, hfind]
    · intro x hx
      rw [alertCountOf_eq_countOfList, alertCountOf_eq_countOfList]
      show countOfList (st.incidents.map _) x = _
      rw [countOfList_bump]
      simp [hx]

/-- Counting effect of one `link` step: plus one exactly on a successful link
to the incident, unchanged otherwise. -/
theorem alertCountOf_steplink (st : Store) (i a f x : String) :
    alertCountOf (stepOp st (.link i a f)) x =
      alertCountOf st x +
        (if i = x ∧ (st.get_incident i).isSome then 1 else 0) := by
  simp only [stepOp]
  cases hg : st.get_incident i with
  | none =>
    rw [show link_alert_to_incident st i a f = .error .not_found from by
      unfold link_alert_to_incident; rw [hg]]
    simp [hg]
  | some cur =>
    rw [show link_alert_to_incident st i a f
        = .ok (AlertRepository.add_correlation_timeline
            (AlertRepository.increment_alert_count st i) i a f) from by
      unfold link_alert_to_incident; rw [hg]]
    have hfind : st.incidents.find? (fun j => j.id == i) = some cur := hg
    show countOfList (st.incidents.map _) x = countOfList st.incidents x + _
    rw [countOfList_bump]
    by_cases hx : x = i
    · subst hx
      simp [Store.get_incident, hfind]
    · have hix : ¬ i = x := fun h => hx h.symm
      simp [hx, hix]

theorem process_alert_incidents_existing (st : Store) (sv se m src : String)
    (lb : List (String × JVal)) (ts : Option String) (aid : String) (w now : Int)
    (niso : String) (rem oc : Option String) (lid iid : String)
    (hfind : AlertRepository.find_existing_incident st sv se w now = some iid) :
    ((AlertService.process_alert st sv se m src lb ts aid w now niso rem oc
        lid).1).incidents
      = st.incidents.map (fun i =>
          if i.id == iid then { i with alert_count := i.alert_count + 1 } else i) := by
  unfold AlertService.process_alert
  rw [hfind]
  rfl

theorem process_alert_incidents_remote (st : Store) (sv se m src : String)
    (lb : List (String × JVal)) (ts : Option String) (aid : String) (w now : Int)
    (niso : String) (oc : Option String) (lid rid : String)
    (hfind : AlertRepository.find_existing_incident st sv se w now = none) :
    ((AlertService.process_alert st sv se m src lb ts aid w now niso (some rid) oc
        lid).1).incidents
      = (st.incidents ++ [(IncidentService.create_incident st rid
            (alertIncidentTitle sv se m) sv se none oc now).2]).map (fun i =>
          if i.id == rid then { i with alert_count := i.alert_count + 1 } else i) := by
  unfold AlertService.process_alert
  rw [hfind]
  rfl

theorem process_alert_incidents_fallback (st : Store) (sv se m src : String)
    (lb : List (String × JVal)) (ts : Option String) (aid : String) (w now : Int)
    (niso : String) (oc : Option String) (lid : String)
    (hfind : AlertRepository.find_existing_incident st sv se w now = none) :
    ((AlertService.process_alert st sv se m src lb ts aid w now niso none oc
        lid).1).incidents
      = (st.incidents ++ [localFallbackIncident lid sv se m now]).map (fun i =>
          if i.id == lid then { i with alert_count := i.alert_count + 1 } else i) := by
  unfold AlertService.process_alert
  rw [hfind]
  rfl

/-- No operation ever decreases an `alert_count`. -/
theorem alertCountOf_mono (st : Store) (op : Op) (x : String) :
    alertCountOf st x ≤ alertCountOf (stepOp st op) x := by
  cases op with
  | create id t sv se a oc now =>
    simp only [stepOp]
    rw [alertCountOf_eq_countOfList, alertCountOf_eq_countOfList,
      create_incident_incidents]
    exact countOfList_append_le _ _ _
  | link iid aid fp =>
    rw [alertCountOf_steplink]
    exact Nat.le_add_right _ _
  | update iid s n a now nid =>
    simp only [stepOp]
    cases hu : IncidentService.update_incident st iid s n a now nid with
    | error e => exact Nat.le_refl _
    | ok p =>
      obtain ⟨st1, row⟩ := p
      obtain ⟨cur, su, _, _, hinc⟩ :=
        update_incident_ok_incidents st iid s n a now nid st1 row hu
      rw [alertCountOf_eq_countOfList, alertCountOf_eq_countOfList, hinc]
      unfold updateIncidentRow
      rw [countOfList_map_preserve st.incidents x _
        (fun i => by by_cases h : (i.id == iid) = true <;> simp [h, foldlUpdates_id])
        (fun i => by by_cases h : (i.id == iid) = true <;>
          simp [h, foldlUpdates_alert_count])]
  | process sv se m src lb ts aid w now niso rem oc lid =>
    simp only [stepOp]
    cases hfind : AlertRepository.find_existing_incident st sv se w now with
    | some iid =>
      rw [alertCountOf_eq_countOfList, alertCountOf_eq_countOfList,
        process_alert_incidents_existing st sv se m src lb ts aid w now niso rem oc
          lid iid hfind, countOfList_bump]
      split
      · exact Nat.le_succ_of_le (Nat.le_refl _)
      · exact Nat.le_refl _
    | none =>
      cases rem with
      | some rid =>
        rw [alertCountOf_eq_countOfList, alertCountOf_eq_countOfList,
          process_alert_incidents_remote st sv se m src lb ts aid w now niso oc lid
            rid hfind, countOfList_bump]
        refine le_trans (countOfList_append_le st.incidents
          (IncidentService.create_incident st rid (alertIncidentTitle sv se m)
            sv se none oc now).2 x) ?_
        split
        · exact Nat.le_succ_of_le (Nat.le_refl _)
        · exact Nat.le_refl _
      | none =>
        rw [alertCountOf_eq_countOfList, alertCountOf_eq_countOfList,
          process_alert_incidents_fallback st sv se m src lb ts aid w now niso oc
            lid hfind, countOfList_bump]
        refine le_trans (countOfList_append_le st.incidents
          (localFallbackIncident lid sv se m now) x) ?_
        split
        · exact Nat.le_succ_of_le (Nat.le_refl _)
        · exact Nat.le_refl _

/-- A `process_alert` that creates an incident — remotely or through the
local fallback — leaves its `alert_count` at exactly one: zero from the
insert plus the single explicit increment. -/
theorem process_fresh_count (st : Store) (sv se m src : String)
    (lb : List (String × JVal)) (ts : Option String) (aid : String) (w now : Int)
    (niso : String) (rem oc : Option String) (lid : String)
    (hmiss : AlertRepository.find_existing_incident st sv se w now = none)
    (hfresh : st.get_incident (rem.getD lid) = none) :
    alertCountOf (AlertService.process_alert st sv se m src lb ts aid w now niso
      rem oc lid).1 (rem.getD lid) = 1 := by
  cases rem with
  | some rid =>
    simp only [Option.getD_some] at hfresh ⊢
    have hfind : st.incidents.find? (fun i => i.id == rid) = none := hfresh
    rw [alertCountOf_eq_countOfList,
      process_alert_incidents_remote st sv se m src lb ts aid w now niso oc lid
        rid hmiss, countOfList_bump]
    have hsome : (List.find? (fun i => i.id == rid) (st.incidents ++
        [(IncidentService.create_incident st rid (alertIncidentTitle sv se m)
          sv se none oc now).2])).isSome = true := by
      rw [List.find?_append, hfind]
      simp [List.find?_cons,
        create_incident_id st rid (alertIncidentTitle sv se m) sv se none oc now]
    rw [if_pos ⟨rfl, hsome⟩,
      countOfList_append_fresh st.incidents _ rid hfind
        (create_incident_id st rid (alertIncidentTitle sv se m) sv se none oc now),
      create_incident_count_zero]
  | none =>
    simp only [Option.getD_none] at hfresh ⊢
    have hfind : st.incidents.find? (fun i => i.id == lid) = none := hfresh
    rw [alertCountOf_eq_countOfList,
      process_alert_incidents_fallback st sv se m src lb ts aid w now niso oc lid
        hmiss, countOfList_bump]
    have hsome : (List.find? (fun i => i.id == lid) (st.incidents ++
        [localFallbackIncident lid sv se m now])).isSome = true := by
      rw [List.find?_append, hfind]
      simp [List.find?_cons, localFallbackIncident]
    rw [if_pos ⟨rfl, hsome⟩,
      countOfList_append_fresh st.incidents _ lid hfind
        (show (localFallbackIncident lid sv se m now).id = lid from rfl)]
    rfl

/-- Over any run made only of `link` operations, the final `alert_count`
equals the initial one plus the number of successful links. -/
theorem alertCount_link_trace (ops : List Op) (st : Store) (x : String)
    (hops : ∀ op ∈ ops, ∃ i a f, op = Op.link i a f) :
    alertCountOf (runOps st ops) x = alertCountOf st x + successfulLinks st x ops := by
  induction ops generalizing st with
  | nil => simp [runOps, successfulLinks]
  | cons op rest ih =>
    obtain ⟨i, a, f, rfl⟩ := hops op (List.mem_cons_self op rest)
    simp only [runOps, successfulLinks]
    rw [ih (stepOp st (.link i a f)) (fun o ho => hops o (List.mem_cons_of_mem _ ho)),
      alertCountOf_steplink]
    exact Nat.add_assoc _ _ _

/-- C8: `alert_count` follows the increment-on-link discipline exactly —
zero at creation, plus one for each successful link (for a fresh creating
`process_alert` the insert and its single increment leave the count at one,
never double-counted), never decreased by any operation, and over any
sequence of link calls it equals the initial count plus the number of
successful calls. -/
theorem C8_alert_count_discipline (st : Store) :
    (∀ id t sv se a oc now,
      (IncidentService.create_incident st id t sv se a oc now).2.alert_count = 0)
    ∧ (∀ iid aid fp st1, link_alert_to_incident st iid aid fp = .ok st1 →
        alertCountOf st1 iid = alertCountOf st iid + 1)
    ∧ (∀ op x, alertCountOf st x ≤ alertCountOf (stepOp st op) x)
    ∧ (∀ sv se m src lb ts aid w now niso rem oc lid,
        AlertRepository.find_existing_incident st sv se w now = none →
        st.get_incident (Option.getD rem lid) = none →
        alertCountOf (AlertService.process_alert st sv se m src lb ts aid w now
          niso rem oc lid).1 (Option.getD rem lid) = 1)
    ∧ (∀ ops x, (∀ op ∈ ops, ∃ i a f, op = Op.link i a f) →
        alertCountOf (runOps st ops) x
          = alertCountOf st x + successfulLinks st x ops) :=
  ⟨fun id t sv se a oc now => create_incident_count_zero st id t sv se a oc now,
   fun iid aid fp st1 h => (alertCountOf_link_ok st st1 iid aid fp h).1,
   fun op x => alertCountOf_mono st op x,
   fun sv se m src lb ts aid w now niso rem oc lid h1 h2 =>
     process_fresh_count st sv se m src lb ts aid w now niso rem oc lid h1 h2,
   fun ops x h => alertCount_link_trace ops st x h⟩

/-- `sampleStore` after one successful link of alert `a1`. -/
def linkedSampleStore : Store :=
  { incidents := [{ sampleIncident with alert_count := 3 }],
    timeline := [⟨"i1", "alert_correlated", "alert-ingestion",
      [("alert_id", .s "a1"), ("fingerprint", .s "fp")]⟩],
    notes := [], alerts := [] }

/-- Witness for C8: creation yields count 0; a link on the sample incident
takes its count from 2 to 3; a degraded-mode `process_alert` on the empty
store leaves the fallback incident at count 1; a one-link trace adds
exactly its one successful link. -/
theorem C8_alert_count_discipline_witness :
    (link_alert_to_incident sampleStore "i1" "a1" "fp" = .ok linkedSampleStore
      ∧ AlertRepository.find_existing_incident emptyStore "api" "high" 5 1000 = none
      ∧ emptyStore.get_incident (Option.getD (none : Option String) "f1") = none)
    ∧ (IncidentService.create_incident emptyStore "i9" "t" "api" "high" none none
        7).2.alert_count = 0
    ∧ alertCountOf linkedSampleStore "i1" = alertCountOf sampleStore "i1" + 1
    ∧ alertCountOf (AlertService.process_alert emptyStore "api" "high" "boom" "api"
        [] none "a9" 5 1000 "iso" none none "f1").1
        (Option.getD (none : Option String) "f1") = 1
    ∧ alertCountOf (runOps sampleStore [Op.link "i1" "a1" "fp"]) "i1"
        = alertCountOf sampleStore "i1"
          + successfulLinks sampleStore "i1" [Op.link "i1" "a1" "fp"] :=
  ⟨⟨by decide, by decide, by decide⟩,
   (C8_alert_count_discipline emptyStore).1 "i9" "t" "api" "high" none none 7,
   (C8_alert_count_discipline sampleStore).2.1 "i1" "a1" "fp" linkedSampleStore
     (by decide),
   (C8_alert_count_discipline emptyStore).2.2.2.1 "api" "high" "boom" "api" [] none
     "a9" 5 1000 "iso" none none "f1" (by decide) (by decide),
   (C8_alert_count_discipline sampleStore).2.2.2.2 [Op.link "i1" "a1" "fp"] "i1"
     (fun op ho => by
       rw [List.mem_singleton] at ho
       exact ⟨"i1", "a1", "fp", ho⟩)⟩

/-! Length and character-set facts about the SHA-256 hexdigest, and the
fingerprint contract. -/

/-- The sixteen lowercase hexadecimal digits. -/
def hexDigits : List Char := "0123456789abcdef".data

theorem compressStep_length (st : List Nat) (wk : Nat × Nat) :
    (compressStep st wk).length = 8 := rfl

theorem foldl_compressStep_length (l : List (Nat × Nat)) (init : List Nat)
    (h : l ≠ []) : (l.foldl compressStep init).length = 8 := by
  induction l generalizing init with
  | nil => exact absurd rfl h
  | cons x xs ih =>
    cases xs with
    | nil =>
      rw [List.foldl_cons, List.foldl_nil]
      exact compressStep_length init x
    | cons y ys =>
      rw [List.foldl_cons]
      exact ih (compressStep init x) (by simp)

theorem scheduleStep_length (ws : List Nat) :
    (scheduleStep ws).length = ws.length + 1 := by
  simp [scheduleStep]

theorem extendSchedule_length (n : Nat) (ws : List Nat) :
    (extendSchedule n ws).length = ws.length + n := by
  induction n generalizing ws with
  | zero => rfl
  | succ k ih =>
    show (extendSchedule k (scheduleStep ws)).length = ws.length + (k + 1)
    rw [ih, scheduleStep_length]
    omega

theorem chunkWords_length (c : List Nat) : (chunkWords c).length = 16 := by
  simp [chunkWords]

theorem processChunk_length (h c : List Nat) (hh : h.length = 8) :
    (processChunk h c).length = 8 := by
  unfold processChunk
  rw [List.length_zipWith, foldl_compressStep_length, hh]
  · rfl
  · have hz : ((extendSchedule 48 (chunkWords c)).zip K).length = 64 := by
      rw [List.length_zip, extendSchedule_length, chunkWords_length]
      rfl
    intro hnil
    rw [hnil] at hz
    exact absurd hz (by simp)

theorem sha256words_length (msg : List Nat) : (sha256words msg).length = 8 := by
  unfold sha256words
  have hgen : ∀ (chunks : List (List Nat)) (h : List Nat), h.length = 8 →
      (chunks.foldl processChunk h).length = 8 := by
    intro chunks
    induction chunks with
    | nil => exact fun h hh => hh
    | cons c cs ih =>
      intro h hh
      rw [List.foldl_cons]
      exact ih _ (processChunk_length h c hh)
  exact hgen _ H0 rfl

theorem toHex8_length (n : Nat) : (toHex8 n).length = 8 := by
  simp [toHex8]

theorem flatten_map_toHex8_length (ws : List Nat) :
    ((ws.map toHex8).flatten).length = 8 * ws.length := by
  induction ws with
  | nil => rfl
  | cons w rest ih =>
    simp only [List.map_cons, List.flatten_cons, List.length_append,
      toHex8_length, ih, List.length_cons]
    omega

theorem hexdigestChars_length (msg : List Nat) : (hexdigestChars msg).length = 64 := by
  unfold hexdigestChars
  rw [flatten_map_toHex8_length, sha256words_length]

theorem compute_fingerprint_length (sv se m : String) :
    (AlertService.compute_fingerprint sv se m).length = 16 := by
  unfold AlertService.compute_fingerprint
  show (List.take 16 (hexdigestChars _)).length = 16
  rw [List.length_take, hexdigestChars_length]
  rfl

theorem hexChar_mem (n : Nat) : hexChar (n % 16) ∈ hexDigits := by
  have h : n % 16 < 16 := Nat.mod_lt _ (by norm_num)
  generalize n % 16 = k at h
  interval_cases k <;> decide

theorem toHex8_mem (n : Nat) (c : Char) (hc : c ∈ toHex8 n) : c ∈ hexDigits := by
  simp only [toHex8, List.mem_map] at hc
  obtain ⟨i, _, rfl⟩ := hc
  exact hexChar_mem _

theorem hexdigestChars_mem (msg : List Nat) (c : Char)
    (hc : c ∈ hexdigestChars msg) : c ∈ hexDigits := by
  unfold hexdigestChars at hc
  rw [List.mem_flatten] at hc
  obtain ⟨l, hl, hcl⟩ := hc
  rw [List.mem_map] at hl
  obtain ⟨w, _, rfl⟩ := hl
  exact toHex8_mem w c hcl

theorem compute_fingerprint_hex (sv se m : String) (c : Char)
    (hc : c ∈ (AlertService.compute_fingerprint sv se m).data) : c ∈ hexDigits := by
  unfold AlertService.compute_fingerprint at hc
  exact hexdigestChars_mem _ c (List.mem_of_mem_take hc)

theorem toLower_append (a b : String) : (a ++ b).toLower = a.toLower ++ b.toLower := by
  apply String.ext
  simp [String.toLower, String.map_eq, String.data_append]

/-- C6: `compute_fingerprint` is a pure function returning a 16-character
lowercase-hex digest for every input, and it depends only on the lowercased
`(service, severity, first-100-characters-of-message)` triple: two calls
agreeing on that triple after lowercasing return identical fingerprints. -/
theorem C6_fingerprint_contract (s1 sev1 m1 s2 sev2 m2 : String)
    (hs : s1.toLower = s2.toLower) (hv : sev1.toLower = sev2.toLower)
    (hm : (m1.take 100).toLower = (m2.take 100).toLower) :
    (AlertService.compute_fingerprint s1 sev1 m1).length = 16
    ∧ (∀ c ∈ (AlertService.compute_fingerprint s1 sev1 m1).data, c ∈ hexDigits)
    ∧ AlertService.compute_fingerprint s1 sev1 m1
        = AlertService.compute_fingerprint s2 sev2 m2 := by
  refine ⟨compute_fingerprint_length s1 sev1 m1,
    fun c hc => compute_fingerprint_hex s1 sev1 m1 c hc, ?_⟩
  unfold AlertService.compute_fingerprint
  have hraw : (s1 ++ "|" ++ sev1 ++ "|" ++ m1.take 100).toLower
      = (s2 ++ "|" ++ sev2 ++ "|" ++ m2.take 100).toLower := by
    simp only [toLower_append, hs, hv, hm]
  rw [hraw]

/-- Witness for C6: `fingerprint("SVC","HIGH","Msg")` equals
`fingerprint("svc","high","msg")`, is 16 characters long and all hex. -/
theorem C6_fingerprint_contract_witness :
    ("SVC".toLower = "svc".toLower ∧ "HIGH".toLower = "high".toLower
      ∧ ("Msg".take 100).toLower = ("msg".take 100).toLower)
    ∧ ((AlertService.compute_fingerprint "SVC" "HIGH" "Msg").length = 16
      ∧ (∀ c ∈ (AlertService.compute_fingerprint "SVC" "HIGH" "Msg").data,
          c ∈ hexDigits)
      ∧ AlertService.compute_fingerprint "SVC" "HIGH" "Msg"
          = AlertService.compute_fingerprint "svc" "high" "msg") :=
  ⟨⟨by simp [String.toLower, String.map_eq], by simp [String.toLower, String.map_eq],
    by simp [String.toLower, String.map_eq]⟩,
   C6_fingerprint_contract "SVC" "HIGH" "Msg" "svc" "high" "msg"
     (by simp [String.toLower, String.map_eq])
     (by simp [String.toLower, String.map_eq])
     (by simp [String.toLower, String.map_eq])⟩

end IncidentPlatform
